import Mathlib

/-!
Verification of the MailTrendz email HTML/CSS validator-optimizer core
(`app/services/css_expert.py`, `app/services/html_optimizer.py`,
`app/utils/validators.py`) against its natural-language specification.

The Python code is shallowly embedded over `List Char`: each Python string
operation (substring tests, `str.replace`, the handful of regexes actually
used) is translated into an executable Lean function with the same
scanning semantics (leftmost match, no rescanning of replaced text, greedy
and lazy pieces resolved as Python's `re` resolves them for these concrete
patterns).  Python `float` scores are modelled by `ℚ`.
-/

set_option maxRecDepth 10000
set_option maxHeartbeats 1000000

namespace MailTrendz

/-- Model of Python `str.lower` on single characters, covering ASCII and the
Latin-1 uppercase letters (the repertoire appearing in the repository's
string constants and in the inputs of interest). -/
def pyLower (c : Char) : Char :=
  if 65 ≤ c.toNat ∧ c.toNat ≤ 90 then Char.ofNat (c.toNat + 32)
  else if 192 ≤ c.toNat ∧ c.toNat ≤ 222 ∧ c.toNat ≠ 215 then Char.ofNat (c.toNat + 32)
  else c

/-- Model of Python `str.upper` on single characters (ASCII and Latin-1
letters; the special multi-character expansions of U+00DF/U+00FF are not
reachable from the texts considered here). -/
def pyUpperChar (c : Char) : Char :=
  if 97 ≤ c.toNat ∧ c.toNat ≤ 122 then Char.ofNat (c.toNat - 32)
  else if 224 ≤ c.toNat ∧ c.toNat ≤ 254 ∧ c.toNat ≠ 247 then Char.ofNat (c.toNat - 32)
  else c

/-- Model of Python `str.isupper` on single characters (ASCII and Latin-1). -/
def pyIsUpper (c : Char) : Bool :=
  (65 ≤ c.toNat && c.toNat ≤ 90) || (192 ≤ c.toNat && c.toNat ≤ 222 && c.toNat != 215)

/-- Python whitespace characters recognised by `\s` and `str.strip`. -/
def isPySpace (c : Char) : Bool :=
  c == ' ' || c == '\t' || c == '\n' || c == '\r' || c == Char.ofNat 11 || c == Char.ofNat 12

/-- Does `pat` match at the head of `s`, comparing each character of `s`
through the character transform `f` (use `id` for Python's case-sensitive
`in`, `pyLower` for `re.IGNORECASE` matching against a lowercase pattern)? -/
def matchAt (f : Char → Char) : List Char → List Char → Bool
  | [], _ => true
  | _ :: _, [] => false
  | p :: ps, c :: cs => (f c == p) && matchAt f ps cs

/-- Python's substring test `pat in s` (through transform `f`). -/
def containsPat (f : Char → Char) (pat : List Char) : List Char → Bool
  | [] => pat.isEmpty
  | c :: cs => matchAt f pat (c :: cs) || containsPat f pat cs

/-- Number of positions of `s` at which `pat` matches (through `f`).  For
the non-self-overlapping patterns counted in the repository this agrees
with Python's `str.count`. -/
def countOcc (f : Char → Char) (pat : List Char) : List Char → Nat
  | [] => if pat.isEmpty then 1 else 0
  | c :: cs => (if matchAt f pat (c :: cs) then 1 else 0) + countOcc f pat cs

/-- Fuelled scanner for `replaceSub` (each step consumes at least one
character, so `fuel = s.length` always suffices). -/
def replaceSubGo (pat rep : List Char) : Nat → List Char → List Char
  | _, [] => []
  | 0, s => s
  | fuel + 1, c :: cs =>
    if pat ≠ [] ∧ matchAt id pat (c :: cs) then
      rep ++ replaceSubGo pat rep fuel ((c :: cs).drop pat.length)
    else
      c :: replaceSubGo pat rep fuel cs

/-- Python `str.replace pat rep` (all non-overlapping occurrences, scanning
left to right, replaced text not rescanned).  All call sites in the
repository use a non-empty `pat`. -/
def replaceSub (pat rep s : List Char) : List Char :=
  replaceSubGo pat rep s.length s

/-- Python `str.strip()` (no arguments). -/
def pyStrip (s : List Char) : List Char :=
  ((s.dropWhile isPySpace).reverse.dropWhile isPySpace).reverse

/-! ### The declaration-removal regexes of `_optimize_css_for_outlook`

The patterns have the shape `prop\s*:[^;]+;` and are applied with
`re.sub(pattern, '', css, flags=re.IGNORECASE)`.  Because `[^;]` can never
cross a semicolon, every match consists of the (case-insensitive) property
name, optional whitespace, a colon, then everything up to and including the
first following semicolon. -/

/-- Drop the leading run of `\s` characters. -/
def skipSpaces : List Char → List Char
  | [] => []
  | c :: cs => if isPySpace c then skipSpaces cs else c :: cs

/-- Consume `[^;]+;` after at least the first character has been checked:
scan to the first `;` and return the tail after it. -/
def consumeValueRest : List Char → Option (List Char)
  | [] => none
  | c :: cs => if c == ';' then some cs else consumeValueRest cs

/-- Consume `[^;]+;`: at least one non-semicolon character, then everything
up to and including the first semicolon. -/
def consumeValue : List Char → Option (List Char)
  | [] => none
  | c :: cs => if c == ';' then none else consumeValueRest cs

/-- Try to match `prop\s*:[^;]+;` (case-insensitively) at the head of `s`;
on success return the remainder of `s` after the match. -/
def matchDeclTail (prop s : List Char) : Option (List Char) :=
  if matchAt pyLower prop s then
    match skipSpaces (s.drop prop.length) with
    | ':' :: rest => consumeValue rest
    | _ => none
  else none

theorem skipSpaces_length (l : List Char) : (skipSpaces l).length ≤ l.length := by
  induction l with
  | nil => simp [skipSpaces]
  | cons c cs ih =>
    simp only [skipSpaces]
    split
    · exact Nat.le_trans ih (Nat.le_succ _)
    · simp

theorem consumeValueRest_length {l r : List Char} (h : consumeValueRest l = some r) :
    r.length < l.length := by
  induction l with
  | nil => simp [consumeValueRest] at h
  | cons c cs ih =>
    simp only [consumeValueRest] at h
    split at h
    · cases h; simp
    · exact Nat.lt_trans (ih h) (Nat.lt_succ_self _)

theorem consumeValue_length {l r : List Char} (h : consumeValue l = some r) :
    r.length < l.length := by
  cases l with
  | nil => simp [consumeValue] at h
  | cons c cs =>
    simp only [consumeValue] at h
    split at h
    · cases h
    · exact Nat.lt_trans (consumeValueRest_length h) (Nat.lt_succ_self _)

theorem matchDeclTail_length {prop s r : List Char} (h : matchDeclTail prop s = some r) :
    r.length < s.length := by
  unfold matchDeclTail at h
  split at h
  · split at h
    · rename_i rest heq
      have h1 : rest.length < (skipSpaces (s.drop prop.length)).length := by
        rw [heq]; simp
      have h2 := skipSpaces_length (s.drop prop.length)
      have h3 : (s.drop prop.length).length ≤ s.length := by
        simp [List.length_drop]
      have h4 := consumeValue_length h
      omega
    · cases h
  · cases h

/-- Fuelled scanner for `removeDecl`.  Every successful match consumes at
least three characters and a skipped character consumes one, so with
`fuel = s.length` the `0` case is unreachable (`matchDeclTail_length`);
fuel only makes the recursion structural so that concrete inputs reduce. -/
def removeDeclGo (prop : List Char) : Nat → List Char → List Char
  | _, [] => []
  | 0, s => s
  | fuel + 1, c :: cs =>
    match matchDeclTail prop (c :: cs) with
    | some rest => removeDeclGo prop fuel rest
    | none => c :: removeDeclGo prop fuel cs

/-- `re.sub(prop\s*:[^;]+;, '', css, flags=re.IGNORECASE)`: a single
left-to-right pass removing non-overlapping matches; replaced text is not
rescanned. -/
def removeDecl (prop s : List Char) : List Char :=
  removeDeclGo prop s.length s

/-! ### The `<style[^>]*>(.*?)</style>` regex (DOTALL | IGNORECASE)

Used by `_extract_css_from_html` (`re.search`, first match's group 1),
`_extract_html_without_css` / `_combine_html_with_css` (`re.sub`) and
`_validate_for_client` (`re.findall`). -/

/-- Consume `[^>]*>`: everything up to and including the first `>`. -/
def consumeToGt : List Char → Option (List Char)
  | [] => none
  | c :: cs => if c == '>' then some cs else consumeToGt cs

/-- Lazy `(.*?)</style>` (DOTALL, IGNORECASE): the shortest content up to
the first case-insensitive `</style>`, returning the content and the tail
after the closing tag. -/
def grabUntilClose : List Char → Option (List Char × List Char)
  | [] => none
  | c :: cs =>
    if matchAt pyLower "</style>".data (c :: cs) then
      some ([], (c :: cs).drop 8)
    else
      match grabUntilClose cs with
      | some (content, tail) => some (c :: content, tail)
      | none => none

/-- Try the whole pattern `<style[^>]*>(.*?)</style>` at the head of `s`;
on success return the captured content and the remainder after the match. -/
def matchStyleAt (s : List Char) : Option (List Char × List Char) :=
  if matchAt pyLower "<style".data s then
    match consumeToGt (s.drop 6) with
    | some afterGt => grabUntilClose afterGt
    | none => none
  else none

theorem consumeToGt_length {l r : List Char} (h : consumeToGt l = some r) :
    r.length < l.length := by
  induction l with
  | nil => simp [consumeToGt] at h
  | cons c cs ih =>
    simp only [consumeToGt] at h
    split at h
    · cases h; simp
    · exact Nat.lt_trans (ih h) (Nat.lt_succ_self _)

theorem grabUntilClose_length {l : List Char} {content tail : List Char}
    (h : grabUntilClose l = some (content, tail)) : tail.length < l.length := by
  induction l generalizing content with
  | nil => simp [grabUntilClose] at h
  | cons c cs ih =>
    simp only [grabUntilClose] at h
    split at h
    · cases h
      simp only [List.drop, List.length_cons]
      have := List.length_drop 7 cs
      omega
    · split at h
      · rename_i content0 tail0 heq
        cases h
        exact Nat.lt_trans (ih heq) (Nat.lt_succ_self _)
      · cases h

theorem matchStyleAt_length {s content tail : List Char}
    (h : matchStyleAt s = some (content, tail)) : tail.length < s.length := by
  unfold matchStyleAt at h
  split at h
  · split at h
    · rename_i afterGt heq
      have h1 := consumeToGt_length heq
      have h2 := grabUntilClose_length h
      have h3 : (s.drop 6).length ≤ s.length := by simp [List.length_drop]
      omega
    · cases h
  · cases h

/-- `re.search(r'<style[^>]*>(.*?)</style>', html, DOTALL | IGNORECASE)`:
the first position at which the whole pattern matches. -/
def searchStyle : List Char → Option (List Char × List Char)
  | [] => none
  | c :: cs =>
    match matchStyleAt (c :: cs) with
    | some r => some r
    | none => searchStyle cs

/-- `_extract_css_from_html`: group 1 of the first style-block match, or
the empty string. -/
def extract_css_from_html (html : List Char) : List Char :=
  match searchStyle html with
  | some (content, _) => content
  | none => []

/-- Fuelled scanner deleting every style block (each step consumes at
least one character — `matchStyleAt_length` — so `fuel = s.length`
always suffices). -/
def stripStyleGo : Nat → List Char → List Char
  | _, [] => []
  | 0, s => s
  | fuel + 1, c :: cs =>
    match matchStyleAt (c :: cs) with
    | some (_, tail) => stripStyleGo fuel tail
    | none => c :: stripStyleGo fuel cs

/-- `_extract_html_without_css`: `re.sub` deleting every style block. -/
def extract_html_without_css (html : List Char) : List Char :=
  stripStyleGo html.length html

/-- Fuelled scanner replacing every style block by `rep`. -/
def replaceStyleGo (rep : List Char) : Nat → List Char → List Char
  | _, [] => []
  | 0, s => s
  | fuel + 1, c :: cs =>
    match matchStyleAt (c :: cs) with
    | some (_, tail) => rep ++ replaceStyleGo rep fuel tail
    | none => c :: replaceStyleGo rep fuel cs

/-- `re.sub` replacing every style block by the fixed text `rep`
(as in `_combine_html_with_css`). -/
def replaceStyleBlocks (rep s : List Char) : List Char :=
  replaceStyleGo rep s.length s

/-- Fuelled scanner collecting the captured groups of all style blocks. -/
def findStyleGo : Nat → List Char → List (List Char)
  | _, [] => []
  | 0, _ => []
  | fuel + 1, c :: cs =>
    match matchStyleAt (c :: cs) with
    | some (content, tail) => content :: findStyleGo fuel tail
    | none => findStyleGo fuel cs

/-- `re.findall(r'<style[^>]*>(.*?)</style>', html, DOTALL | IGNORECASE)`:
the captured groups of all non-overlapping matches. -/
def findStyleBlocks (html : List Char) : List (List Char) :=
  findStyleGo html.length html

/-! ### `CSSExpert` string constants (transcribed verbatim from
`app/services/css_expert.py`; literal braces written `\x7b`/`\x7d`). -/

/-- Block appended by `_optimize_css_for_outlook`. -/
def outlookAppendCss : String :=
  "\n/* Outlook específico */\n.outlook-container \x7b\n    font-family: Arial, sans-serif !important;\n\x7d\n\ntable \x7b\n    mso-table-lspace: 0pt;\n    mso-table-rspace: 0pt;\n    border-collapse: collapse;\n\x7d\n\nimg \x7b\n    -ms-interpolation-mode: bicubic;\n    border: 0;\n    height: auto;\n    line-height: 100%;\n    outline: none;\n    text-decoration: none;\n\x7d\n"

/-- Block appended by `_optimize_css_for_gmail`. -/
def gmailResetCss : String :=
  "\n/* Gmail específico */\n.gmail-container \x7b\n    font-family: Arial, Helvetica, sans-serif;\n\x7d\n\nu + .body .gmail-container \x7b\n    font-family: Arial, Helvetica, sans-serif;\n\x7d\n\n.gmail-container img \x7b\n    max-width: 100%;\n    height: auto;\n\x7d\n"

/-- Replacement text for `<head>` in `_optimize_html_for_outlook`. -/
def msoHeadReplacement : String :=
  "<head>\n<!--[if mso]>\n<noscript>\n<xml>\n<o:OfficeDocumentSettings>\n<o:AllowPNG/>\n<o:PixelsPerInch>96</o:PixelsPerInch>\n</o:OfficeDocumentSettings>\n</xml>\n</noscript>\n<![endif]-->"

/-- Literal guard string for the dark-mode enhancement. -/
def darkMarker : String := "@media (prefers-color-scheme: dark)"

/-- Literal guard string for the mobile-breakpoint enhancement. -/
def mobileMarker : String := "@media only screen and (max-width: 600px)"

/-- `dark_mode_css` appended by `_apply_modern_enhancements` (note the
trailing blanks present in the source). -/
def darkModeCss : String :=
  "\n@media (prefers-color-scheme: dark) \x7b\n    .email-container \x7b \n        background: linear-gradient(180deg, #1f2937 0%, #111827 100%) !important; \n    \x7d\n    .email-content \x7b \n        background: linear-gradient(180deg, #1f2937 0%, #111827 100%) !important; \n        color: #f3f4f6 !important; \n    \x7d\n    .email-content h1, .email-content h2, .email-content h3 \x7b \n        color: #f3f4f6 !important; \n    \x7d\n    .email-content p \x7b \n        color: #e5e7eb !important; \n    \x7d\n\x7d"

/-- `mobile_css` appended by `_apply_modern_enhancements`. -/
def mobileCss : String :=
  "\n@media only screen and (max-width: 600px) \x7b\n    .email-container \x7b \n        margin: 0 !important; \n        border-radius: 0 !important; \n        width: 100% !important;\n    \x7d\n    .email-header, .email-content, .email-footer \x7b \n        padding: 30px 20px !important; \n    \x7d\n    .cta-button \x7b \n        padding: 16px 32px !important; \n        display: block !important;\n        max-width: 280px !important;\n        margin: 25px auto !important;\n    \x7d\n\x7d"

/-! ### `CSSExpert` transforms -/

/-- The six `outlook_unsupported` regex property names, in source order. -/
def outlook_unsupported : List (List Char) :=
  ["border-radius".data, "box-shadow".data, "text-shadow".data,
   "transform".data, "transition".data, "animation".data]

/-- The six `re.sub` passes of `_optimize_css_for_outlook`, in order. -/
def removeAllOutlook (css : List Char) : List Char :=
  outlook_unsupported.foldl (fun acc p => removeDecl p acc) css

/-- `_optimize_css_for_outlook`: strip the unsupported declarations
(one `re.sub` pass per pattern, in order), then append the fixed block. -/
def optimize_css_for_outlook (css : List Char) : List Char :=
  removeAllOutlook css ++ outlookAppendCss.data

/-- `_optimize_css_for_gmail`. -/
def optimize_css_for_gmail (css : List Char) : List Char :=
  css ++ gmailResetCss.data

/-- `_optimize_css_for_yahoo`: hard cut at 30000 characters, with a literal
`"..."` appended after the cut. -/
def optimize_css_for_yahoo (css : List Char) : List Char :=
  if 30000 < css.length then css.take 30000 ++ "...".data else css

/-- `_optimize_html_for_outlook`: inject the MSO conditional after every
`<head>` occurrence when `mso` does not occur case-insensitively. -/
def optimize_html_for_outlook (html : List Char) : List Char :=
  if containsPat pyLower "mso".data html then html
  else replaceSub "<head>".data msoHeadReplacement.data html

/-- Result triple of `_optimize_for_specific_client`. -/
structure ClientOpt where
  css : List Char
  html : List Char
  optimizations : List String
deriving DecidableEq, Repr

/-- Keys of `self.email_client_compatibility` (note: only four clients;
`thunderbird` is absent from this table). -/
def email_client_compatibility_keys : List String :=
  ["gmail", "outlook", "apple_mail", "yahoo"]

/-- `_optimize_for_specific_client`. -/
def optimize_for_specific_client (css html : List Char) (client : String) : ClientOpt :=
  if client = "outlook" then
    { css := optimize_css_for_outlook css,
      html := optimize_html_for_outlook html,
      optimizations := ["Outlook VML compatibility", "Table-based layout"] }
  else if client = "gmail" then
    { css := optimize_css_for_gmail css, html := html,
      optimizations := ["Gmail CSS reset", "Inline styles prioritized"] }
  else if client = "apple_mail" then
    { css := css, html := html, optimizations := ["Full CSS3 support enabled"] }
  else if client = "yahoo" then
    { css := optimize_css_for_yahoo css, html := html,
      optimizations := ["Yahoo CSS size optimized"] }
  else
    { css := css, html := html, optimizations := [] }

/-- Result of `_apply_modern_enhancements`. -/
structure EnhanceResult where
  css : List Char
  html : List Char
  enhancements : List String
deriving DecidableEq, Repr

/-- `_apply_modern_enhancements`: append the dark-mode block unless its
marker already occurs literally, then the mobile block unless its marker
occurs in the (possibly already extended) CSS. -/
def apply_modern_enhancements (css html : List Char)
    (enable_dark_mode mobile_first : Bool) : EnhanceResult :=
  let (css1, enh1) :=
    if enable_dark_mode && !containsPat id darkMarker.data css then
      (css ++ darkModeCss.data, ["Dark mode support"])
    else (css, ([] : List String))
  let (css2, enh2) :=
    if mobile_first && !containsPat id mobileMarker.data css1 then
      (css1 ++ mobileCss.data, enh1 ++ ["Mobile-first responsive"])
    else (css1, enh1)
  { css := css2, html := html, enhancements := enh2 }

/-- `_combine_html_with_css` (first branch tests `"<style" in html`
case-sensitively, as the source does). -/
def combine_html_with_css (html css : List Char) : List Char :=
  if containsPat id "<style".data html then
    replaceStyleBlocks ("<style>\n".data ++ css ++ "\n</style>".data) html
  else if containsPat id "<head>".data html then
    replaceSub "<head>".data ("<head>\n<style>\n".data ++ css ++ "\n</style>".data) html
  else
    "<style>\n".data ++ css ++ "\n</style>\n".data ++ html

/-- `_extract_components`. -/
def extract_components (html : List Char) : List String :=
  let low := html.map pyLower
  (if containsPat id "email-header".data low then ["header"] else []) ++
  (if containsPat id "email-content".data low then ["content"] else []) ++
  (if containsPat id "cta-button".data low then ["cta"] else []) ++
  (if containsPat id "trust-badge".data low then ["trust-elements"] else []) ++
  (if containsPat id "email-footer".data low then ["footer"] else []) ++
  (if containsPat id "card".data low then ["cards"] else [])

/-- `_calculate_compatibility_score` (floats modelled by `ℚ`). -/
def calculate_compatibility_score (target_clients : List String) : ℚ :=
  let base : ℚ := 8/10
  let base := if "outlook" ∈ target_clients then base + 5/100 else base
  let base := if "gmail" ∈ target_clients then base + 5/100 else base
  let base := if "apple_mail" ∈ target_clients then base + 5/100 else base
  let base := if 3 ≤ target_clients.length then base + 5/100 else base
  min base 1

/-! ### `generate_modern_css_framework` -/

/-- One entry of `self.modern_color_palettes`. -/
structure ColorPalette where
  primary : String
  secondary : String
  accent : String
  background : String
  text : String
  gradient : String
deriving DecidableEq, Repr

/-- The `"professional"` palette. -/
def professionalPalette : ColorPalette :=
  { primary := "#2563eb", secondary := "#3b82f6", accent := "#8b5cf6",
    background := "#f8fafc", text := "#1e293b",
    gradient := "linear-gradient(135deg, #2563eb 0%, #3b82f6 50%, #8b5cf6 100%)" }

/-- `self.modern_color_palettes`. -/
def modern_color_palettes : List (String × ColorPalette) :=
  [("professional", professionalPalette),
   ("persuasive",
    { primary := "#dc2626", secondary := "#ef4444", accent := "#f97316",
      background := "#fefcfb", text := "#1f2937",
      gradient := "linear-gradient(135deg, #dc2626 0%, #ef4444 50%, #f97316 100%)" }),
   ("friendly",
    { primary := "#059669", secondary := "#10b981", accent := "#22d3ee",
      background := "#f0fdf4", text := "#1f2937",
      gradient := "linear-gradient(135deg, #059669 0%, #10b981 50%, #22d3ee 100%)" }),
   ("urgent",
    { primary := "#ea580c", secondary := "#f97316", accent := "#fbbf24",
      background := "#fffbeb", text := "#1f2937",
      gradient := "linear-gradient(135deg, #ea580c 0%, #f97316 50%, #fbbf24 100%)" }),
   ("luxury",
    { primary := "#1f2937", secondary := "#374151", accent := "#d4af37",
      background := "#f9fafb", text := "#1f2937",
      gradient := "linear-gradient(135deg, #1f2937 0%, #374151 50%, #d4af37 100%)" })]

/-- `self.modern_color_palettes.get(style_theme, ...["professional"])`. -/
def getPalette (style_theme : String) : ColorPalette :=
  (modern_color_palettes.lookup style_theme).getD professionalPalette

/-- `_generate_animations_css`. -/
def animationsCss : String :=
  "\n/* Animações sutis */\n@keyframes fadeIn \x7b\n    from \x7b opacity: 0; transform: translateY(10px); \x7d\n    to \x7b opacity: 1; transform: translateY(0); \x7d\n\x7d\n\n@keyframes slideIn \x7b\n    from \x7b transform: translateX(-20px); opacity: 0; \x7d\n    to \x7b transform: translateX(0); opacity: 1; \x7d\n\x7d\n\n.animate-fade-in \x7b\n    animation: fadeIn 0.6s ease-out;\n\x7d\n\n.animate-slide-in \x7b\n    animation: slideIn 0.5s ease-out;\n\x7d\n\n.cta-button \x7b\n    transition: all 0.3s ease;\n\x7d\n\n.card \x7b\n    transition: box-shadow 0.3s ease;\n\x7d\n\n.card:hover \x7b\n    box-shadow: 0 8px 25px rgba(0,0,0,0.12);\n\x7d\n"

/-- Framework f-string, text before `palette['gradient']` (header). -/
def fwSeg0 : String :=
  "\n/* ✅ MAILTRENDZ MODERN CSS FRAMEWORK */\n/* Reset Ultra-Moderno */\n* \x7b \n    margin: 0; \n    padding: 0; \n    box-sizing: border-box; \n\x7d\n\n/* Fontes modernas */\nbody, table, td, p, a, li, blockquote \x7b \n    -webkit-text-size-adjust: 100%; \n    -ms-text-size-adjust: 100%; \n    font-family: -apple-system, BlinkMacSystemFont, 'Segoe UI', 'Inter', 'Roboto', sans-serif;\n\x7d\n\n/* Container principal */\n.email-container \x7b\n    max-width: 600px;\n    margin: 0 auto;\n    background: linear-gradient(180deg, #ffffff 0%, #fefefe 100%);\n    border-radius: 16px;\n    overflow: hidden;\n    box-shadow: 0 25px 50px rgba(0, 0, 0, 0.1);\n    font-family: -apple-system, BlinkMacSystemFont, 'Segoe UI', sans-serif;\n\x7d\n\n/* Header ultra-moderno */\n.email-header \x7b\n    background: "

/-- Framework f-string, between `gradient` and `background`. -/
def fwSeg1 : String :=
  ";\n    padding: 40px 30px;\n    text-align: center;\n    position: relative;\n\x7d\n\n.email-header h1 \x7b\n    color: #ffffff;\n    font-size: clamp(28px, 5vw, 36px);\n    font-weight: 700;\n    margin: 0;\n    text-shadow: 0 2px 10px rgba(0,0,0,0.3);\n    line-height: 1.2;\n\x7d\n\n/* Conteúdo principal */\n.email-content \x7b\n    padding: 40px 30px;\n    background: "

/-- Framework f-string, between `background` and `text`. -/
def fwSeg2 : String := ";\n    line-height: 1.7;\n    color: "

/-- Framework f-string, between `text` and `primary` (h2). -/
def fwSeg3 : String := ";\n\x7d\n\n.email-content h2 \x7b\n    color: "

/-- Framework f-string, between `primary` and `text` (h3). -/
def fwSeg4 : String :=
  ";\n    font-size: clamp(22px, 4vw, 28px);\n    font-weight: 600;\n    margin: 0 0 25px 0;\n    line-height: 1.3;\n\x7d\n\n.email-content h3 \x7b\n    color: "

/-- Framework f-string, between `text` and `text` (paragraph). -/
def fwSeg5 : String :=
  ";\n    font-size: clamp(18px, 3vw, 22px);\n    font-weight: 600;\n    margin: 25px 0 15px 0;\n    line-height: 1.4;\n\x7d\n\n.email-content p \x7b\n    margin: 0 0 20px 0;\n    font-size: 16px;\n    line-height: 1.7;\n    color: "

/-- Framework f-string, between `text` and `gradient` (list bullet). -/
def fwSeg6 : String :=
  ";\n\x7d\n\n/* Lista moderna */\n.email-content ul \x7b\n    margin: 0 0 25px 0;\n    padding-left: 0;\n    list-style: none;\n\x7d\n\n.email-content li \x7b\n    margin: 0 0 12px 0;\n    padding-left: 35px;\n    position: relative;\n    font-size: 16px;\n    line-height: 1.6;\n\x7d\n\n.email-content li::before \x7b\n    content: '✓';\n    position: absolute;\n    left: 0;\n    top: 2px;\n    color: #ffffff;\n    font-weight: bold;\n    font-size: 12px;\n    width: 24px;\n    height: 24px;\n    background: "

/-- Framework f-string, between `gradient` and `gradient` (CTA). -/
def fwSeg7 : String :=
  ";\n    border-radius: 50%;\n    display: flex;\n    align-items: center;\n    justify-content: center;\n    box-shadow: 0 3px 8px rgba(0,0,0,0.15);\n\x7d\n\n/* CTA ultra-moderno */\n.cta-container \x7b\n    text-align: center;\n    margin: 40px 0;\n\x7d\n\n.cta-button \x7b\n    display: inline-block;\n    background: "

/-- Framework f-string, between `gradient` and `primary` (card h3). -/
def fwSeg8 : String :=
  ";\n    color: #ffffff !important;\n    text-decoration: none;\n    padding: 18px 40px;\n    border-radius: 50px;\n    font-size: 16px;\n    font-weight: 600;\n    box-shadow: 0 10px 30px rgba(0,0,0,0.15);\n    transition: all 0.3s ease;\n    border: none;\n    text-align: center;\n    min-width: 200px;\n    cursor: pointer;\n\x7d\n\n.cta-button:hover \x7b\n    transform: translateY(-2px);\n    box-shadow: 0 15px 40px rgba(0,0,0,0.2);\n\x7d\n\n/* Cards modernos */\n.card \x7b\n    background: #ffffff;\n    border-radius: 12px;\n    padding: 25px;\n    margin: 20px 0;\n    box-shadow: 0 4px 15px rgba(0,0,0,0.08);\n    border: 1px solid rgba(0,0,0,0.06);\n\x7d\n\n.card h3 \x7b\n    color: "

/-- Framework f-string, between `primary` and `primary` (trust border). -/
def fwSeg9 : String :=
  ";\n    margin-bottom: 15px;\n\x7d\n\n/* Badges de confiança */\n.trust-badges \x7b\n    display: grid;\n    grid-template-columns: repeat(auto-fit, minmax(150px, 1fr));\n    gap: 15px;\n    margin: 30px 0;\n\x7d\n\n.trust-badge \x7b\n    display: flex;\n    align-items: center;\n    gap: 10px;\n    padding: 15px 20px;\n    background: #ffffff;\n    border: 1px solid "

/-- Framework f-string, between `primary` and `primary` (trust color). -/
def fwSeg10 : String := "30;\n    border-radius: 12px;\n    font-size: 14px;\n    color: "

/-- Framework f-string, between `primary` and `gradient` (trust bullet). -/
def fwSeg11 : String :=
  ";\n    font-weight: 500;\n    box-shadow: 0 3px 12px rgba(0,0,0,0.05);\n\x7d\n\n.trust-badge::before \x7b\n    content: '✓';\n    font-weight: bold;\n    color: #ffffff;\n    background: "

/-- Framework f-string, between `gradient` and `primary` (footer link). -/
def fwSeg12 : String :=
  ";\n    width: 20px;\n    height: 20px;\n    border-radius: 50%;\n    display: flex;\n    align-items: center;\n    justify-content: center;\n    font-size: 11px;\n    flex-shrink: 0;\n\x7d\n\n/* Footer moderno */\n.email-footer \x7b\n    background: linear-gradient(135deg, #f8fafc 0%, #f1f5f9 100%);\n    padding: 40px 30px;\n    text-align: center;\n    border-top: 1px solid rgba(0,0,0,0.08);\n\x7d\n\n.email-footer p \x7b\n    color: #64748b;\n    font-size: 14px;\n    margin: 8px 0;\n    line-height: 1.5;\n\x7d\n\n.email-footer a \x7b\n    color: "

/-- Framework f-string, between `primary` and the animations slot. -/
def fwSeg13 : String :=
  ";\n    text-decoration: none;\n    font-weight: 500;\n\x7d\n\n/* Responsividade ultra-moderna */\n@media only screen and (max-width: 600px) \x7b\n    .email-container \x7b \n        margin: 0 !important; \n        border-radius: 0 !important; \n        width: 100% !important;\n    \x7d\n    \n    .email-header, .email-content, .email-footer \x7b \n        padding: 30px 20px !important; \n    \x7d\n    \n    .email-header h1 \x7b \n        font-size: 26px !important; \n    \x7d\n    \n    .email-content h2 \x7b \n        font-size: 22px !important; \n    \x7d\n    \n    .cta-button \x7b \n        padding: 16px 32px !important; \n        font-size: 15px !important;\n        display: block !important;\n        max-width: 280px !important;\n        margin: 25px auto !important;\n    \x7d\n    \n    .trust-badges \x7b\n        grid-template-columns: 1fr;\n    \x7d\n    \n    .card \x7b\n        padding: 20px !important;\n        margin: 15px 0 !important;\n    \x7d\n\x7d\n\n/* Dark mode ultra-moderno */\n@media (prefers-color-scheme: dark) \x7b\n    .email-container \x7b \n        background: linear-gradient(180deg, #1f2937 0%, #111827 100%) !important; \n    \x7d\n    \n    .email-content \x7b \n        background: linear-gradient(180deg, #1f2937 0%, #111827 100%) !important; \n        color: #f3f4f6 !important; \n    \x7d\n    \n    .email-content h2, .email-content h3 \x7b \n        color: #f3f4f6 !important; \n    \x7d\n    \n    .email-content p \x7b \n        color: #e5e7eb !important; \n    \x7d\n    \n    .card \x7b\n        background: #374151 !important;\n        border-color: #4b5563 !important;\n    \x7d\n    \n    .trust-badge \x7b\n        background: #374151 !important;\n        border-color: #4b5563 !important;\n        color: #f3f4f6 !important;\n    \x7d\n    \n    .email-footer \x7b \n        background: linear-gradient(135deg, #111827 0%, #1f2937 100%) !important; \n    \x7d\n    \n    .email-footer p \x7b\n        color: #9ca3af !important;\n    \x7d\n\x7d\n\n/* Animações sutis (se habilitadas) */\n"

/-- Framework f-string, text after the animations slot. -/
def fwSeg14 : String :=
  "\n\n/* Acessibilidade */\n.sr-only \x7b\n    position: absolute;\n    width: 1px;\n    height: 1px;\n    padding: 0;\n    margin: -1px;\n    overflow: hidden;\n    clip: rect(0, 0, 0, 0);\n    white-space: nowrap;\n    border: 0;\n\x7d\n\n/* Compatibilidade Outlook */\n.outlook-fix \x7b\n    mso-table-lspace: 0pt;\n    mso-table-rspace: 0pt;\n    border-collapse: collapse;\n\x7d\n\n.outlook-font \x7b\n    font-family: Arial, sans-serif;\n\x7d\n\n/* Utilidades */\n.text-center \x7b text-align: center; \x7d\n.text-left \x7b text-align: left; \x7d\n.text-right \x7b text-align: right; \x7d\n\n.mb-10 \x7b margin-bottom: 10px; \x7d\n.mb-20 \x7b margin-bottom: 20px; \x7d\n.mb-30 \x7b margin-bottom: 30px; \x7d\n\n.mt-10 \x7b margin-top: 10px; \x7d\n.mt-20 \x7b margin-top: 20px; \x7d\n.mt-30 \x7b margin-top: 30px; \x7d\n\n.p-10 \x7b padding: 10px; \x7d\n.p-20 \x7b padding: 20px; \x7d\n.p-30 \x7b padding: 30px; \x7d\n"

/-- `generate_modern_css_framework` (`industry` is only logged by the
source, never used in the output). -/
def generate_modern_css_framework (industry style_theme : String)
    (include_animations : Bool) : List Char :=
  let _ := industry
  let palette := getPalette style_theme
  pyStrip (fwSeg0.data ++ palette.gradient.data ++ fwSeg1.data ++ palette.background.data ++
    fwSeg2.data ++ palette.text.data ++ fwSeg3.data ++ palette.primary.data ++
    fwSeg4.data ++ palette.text.data ++ fwSeg5.data ++ palette.text.data ++
    fwSeg6.data ++ palette.gradient.data ++ fwSeg7.data ++ palette.gradient.data ++
    fwSeg8.data ++ palette.primary.data ++ fwSeg9.data ++ palette.primary.data ++
    fwSeg10.data ++ palette.primary.data ++ fwSeg11.data ++ palette.gradient.data ++
    fwSeg12.data ++ palette.primary.data ++ fwSeg13.data ++
    (if include_animations then animationsCss.data else []) ++ fwSeg14.data)

/-! ### The `optimize_for_email_clients` pipeline

The Python method wraps its whole body in `try/except Exception` and
returns `_create_fallback_optimization(html)` from the handler.  To model
that boundary the body is parametrised by a `PipelineSteps` record whose
fields may fail (`Except`), mirroring that any internal step can raise;
`realSteps` instantiates them with the total transforms above.
`processing_time` (wall-clock) is not modelled. -/

/-- The result dictionary of `optimize_for_email_clients` /
`_create_fallback_optimization` (minus `processing_time`). -/
structure OptResult where
  html : List Char
  css : List Char
  components : List String
  optimizations : List String
  compatibility_score : ℚ
  supported_clients : List String
  dark_mode_enabled : Bool
  mobile_optimized : Bool
deriving DecidableEq, Repr

/-- `_create_fallback_optimization`. -/
def create_fallback_optimization (html : List Char) : OptResult :=
  { html := html,
    css := generate_modern_css_framework "geral" "professional" false,
    components := ["fallback"],
    optimizations := ["Fallback optimization applied"],
    compatibility_score := 8/10,
    supported_clients := ["gmail", "outlook"],
    dark_mode_enabled := true,
    mobile_optimized := true }

/-- The internal steps of the pipeline body, each allowed to fail (model of
"any transform step may raise"). -/
structure PipelineSteps where
  extractCss : List Char → Except String (List Char)
  extractHtml : List Char → Except String (List Char)
  perClient : List Char → List Char → String → Except String ClientOpt
  enhance : List Char → List Char → Bool → Bool → Except String EnhanceResult
  combine : List Char → List Char → Except String (List Char)
  components : List Char → Except String (List String)

/-- The real (total) steps of `CSSExpert`. -/
def realSteps : PipelineSteps :=
  { extractCss := fun h => .ok (extract_css_from_html h),
    extractHtml := fun h => .ok (extract_html_without_css h),
    perClient := fun css html c => .ok (optimize_for_specific_client css html c),
    enhance := fun css html d m => .ok (apply_modern_enhancements css html d m),
    combine := fun html css => .ok (combine_html_with_css html css),
    components := fun h => .ok (extract_components h) }

/-- The `for client in target_clients` loop: a client is processed only if
it is a key of `email_client_compatibility`, otherwise it is silently
skipped; labels accumulate with `extend`. -/
def clientLoop (steps : PipelineSteps) :
    List String → List Char → List Char → List String →
    Except String (List Char × List Char × List String)
  | [], css, html, opts => .ok (css, html, opts)
  | client :: rest, css, html, opts =>
    if client ∈ email_client_compatibility_keys then
      match steps.perClient css html client with
      | .error e => .error e
      | .ok r => clientLoop steps rest r.css r.html (opts ++ r.optimizations)
    else
      clientLoop steps rest css html opts

/-- The `try` body of `optimize_for_email_clients`. -/
def pipelineBody (steps : PipelineSteps) (html : List Char) (target_clients : List String)
    (enable_dark_mode mobile_first : Bool) : Except String OptResult :=
  match steps.extractCss html with
  | .error e => .error e
  | .ok extractedCss =>
  match steps.extractHtml html with
  | .error e => .error e
  | .ok extractedHtml =>
  match clientLoop steps target_clients extractedCss extractedHtml [] with
  | .error e => .error e
  | .ok (css1, html1, opts) =>
  match steps.enhance css1 html1 enable_dark_mode mobile_first with
  | .error e => .error e
  | .ok enh =>
  match steps.combine enh.html enh.css with
  | .error e => .error e
  | .ok finalHtml =>
  match steps.components finalHtml with
  | .error e => .error e
  | .ok comps =>
    .ok { html := finalHtml,
          css := enh.css,
          components := comps,
          optimizations := opts ++ enh.enhancements,
          compatibility_score := calculate_compatibility_score target_clients,
          supported_clients := target_clients,
          dark_mode_enabled := enable_dark_mode,
          mobile_optimized := mobile_first }

/-- `optimize_for_email_clients`: the body's result, or the fallback when
any internal step failed (the `except Exception` handler). -/
def optimize_for_email_clients (steps : PipelineSteps) (html : List Char)
    (target_clients : List String) (enable_dark_mode mobile_first : Bool) : OptResult :=
  match pipelineBody steps html target_clients enable_dark_mode mobile_first with
  | .ok r => r
  | .error _ => create_fallback_optimization html

/-- Pure form of the client loop, realised by `realSteps`. -/
def clientLoopPure :
    List String → List Char × List Char × List String →
    List Char × List Char × List String
  | [], acc => acc
  | client :: rest, (css, html, opts) =>
    if client ∈ email_client_compatibility_keys then
      let r := optimize_for_specific_client css html client
      clientLoopPure rest (r.css, r.html, opts ++ r.optimizations)
    else
      clientLoopPure rest (css, html, opts)

/-- Pure closed form of the whole pipeline under the real steps. -/
def optimizePure (html : List Char) (target_clients : List String)
    (enable_dark_mode mobile_first : Bool) : OptResult :=
  let acc := clientLoopPure target_clients
    (extract_css_from_html html, extract_html_without_css html, [])
  let enh := apply_modern_enhancements acc.1 acc.2.1 enable_dark_mode mobile_first
  let finalHtml := combine_html_with_css enh.html enh.css
  { html := finalHtml,
    css := enh.css,
    components := extract_components finalHtml,
    optimizations := acc.2.2 ++ enh.enhancements,
    compatibility_score := calculate_compatibility_score target_clients,
    supported_clients := target_clients,
    dark_mode_enabled := enable_dark_mode,
    mobile_optimized := mobile_first }

/-! ### `EmailValidator` (`app/utils/validators.py`) -/

/-- A single apostrophe, used in the formatted factor/warning strings. -/
def sq : String := String.mk [Char.ofNat 39]

/-- Result of `_validate_html_structure`. -/
structure StructureReport where
  valid : Bool
  score : Int
  issues : List String
  warnings : List String
deriving DecidableEq, Repr

/-- The `required_elements` pairs, exactly as written in the source (the
probes for `<html>`, `<head>`, `<body>` are lower-case although they are
searched in `html.upper()`). -/
def required_elements : List (String × String) :=
  [("<!DOCTYPE", "Missing DOCTYPE declaration"),
   ("<html", "Missing <html> tag"),
   ("<head", "Missing <head> section"),
   ("<body", "Missing <body> tag")]

/-- `_validate_html_structure`. -/
def validate_html_structure (html : List Char) : StructureReport :=
  let up := html.map pyUpperChar
  let low := html.map pyLower
  let missing := required_elements.filter (fun p => !containsPat id p.1.data up)
  let issues := missing.map (fun p => p.2)
  let score0 : Int := 100 - 20 * missing.length
  let (warnings1, score1) :=
    if !containsPat id "charset".data low then
      (["Missing charset meta tag"], score0 - 5)
    else ([], score0)
  let (warnings2, score2) :=
    if !containsPat id "viewport".data low then
      (warnings1 ++ ["Missing viewport meta tag"], score1 - 5)
    else (warnings1, score1)
  let (warnings3, score3) :=
    if !containsPat id "max-width".data low then
      (warnings2 ++ ["No max-width specified for email container"], score2 - 10)
    else (warnings2, score2)
  let (warnings4, score4) :=
    if !containsPat id "<table".data low then
      (warnings3 ++ ["Consider using tables for better email client compatibility"], score3 - 5)
    else (warnings3, score3)
  { valid := issues.isEmpty, score := max 0 score4, issues := issues, warnings := warnings4 }

/-- The fields of a `self.email_client_rules` entry that the code reads. -/
structure ClientRules where
  max_css_size : Option Nat
  blocked_css : List String
  uses_word_engine : Bool
  strips_head_styles : Bool
deriving DecidableEq, Repr

/-- `self.email_client_rules` (all five clients, including `thunderbird`). -/
def email_client_rules (client : String) : Option ClientRules :=
  if client = "gmail" then
    some { max_css_size := some 50000, blocked_css := ["position", "z-index", "float"],
           uses_word_engine := false, strips_head_styles := true }
  else if client = "outlook" then
    some { max_css_size := none,
           blocked_css := ["border-radius", "box-shadow", "text-shadow", "transform"],
           uses_word_engine := true, strips_head_styles := false }
  else if client = "apple_mail" then
    some { max_css_size := none, blocked_css := [],
           uses_word_engine := false, strips_head_styles := false }
  else if client = "yahoo" then
    some { max_css_size := some 30000, blocked_css := ["position"],
           uses_word_engine := false, strips_head_styles := false }
  else if client = "thunderbird" then
    some { max_css_size := none, blocked_css := ["position"],
           uses_word_engine := false, strips_head_styles := false }
  else none

/-- `_get_client_features`. -/
def get_client_features (client : String) : List String :=
  if client = "gmail" then ["media_queries", "inline_styles", "basic_css"]
  else if client = "outlook" then ["table_layout", "mso_conditionals", "basic_css"]
  else if client = "apple_mail" then ["full_css", "media_queries", "modern_features"]
  else if client = "yahoo" then ["basic_css", "media_queries"]
  else if client = "thunderbird" then ["good_css", "media_queries"]
  else ["basic_css"]

/-- Result of `_validate_for_client`; the unknown-client branch returns a
dictionary without the `compatibility_features` key, modelled by `none`. -/
structure ClientReport where
  score : Int
  issues : List String
  warnings : List String
  compatibility_features : Option (List String)
deriving DecidableEq, Repr

/-- `_validate_for_client`.  An unknown client id yields the fixed default
`{"score": 80, "issues": [], "warnings": []}`; no error is raised. -/
def validate_for_client (html : List Char) (client : String) : ClientReport :=
  match email_client_rules client with
  | none => { score := 80, issues := [], warnings := [], compatibility_features := none }
  | some rules =>
    let low := html.map pyLower
    let (issues1, score1) :=
      match rules.max_css_size with
      | some limit =>
        let cssSize := ((findStyleBlocks html).map List.length).sum
        if limit < cssSize then
          (["CSS size (" ++ toString cssSize ++ ") exceeds " ++ client ++
              " limit (" ++ toString limit ++ ")"], (100 : Int) - 20)
        else ([], (100 : Int))
      | none => ([], (100 : Int))
    let foundBlocked := rules.blocked_css.filter (fun p => containsPat id p.data html)
    let warnings1 := foundBlocked.map
      (fun p => "Property " ++ sq ++ p ++ sq ++ " not supported in " ++ client)
    let score2 := score1 - 5 * foundBlocked.length
    let (warnings2, score3) :=
      if client = "outlook" then
        let (wA, sA) :=
          if !containsPat id "<table".data low then
            (warnings1 ++ ["Outlook prefers table-based layouts"], score2 - 10)
          else (warnings1, score2)
        if rules.uses_word_engine && !containsPat id "mso".data low then
          (wA ++ ["Consider adding MSO conditionals for Outlook"], sA - 5)
        else (wA, sA)
      else if client = "gmail" then
        if rules.strips_head_styles && containsPat id "<style".data html then
          (warnings1 ++ ["Gmail may strip <style> tags - prefer inline styles"], score2 - 5)
        else (warnings1, score2)
      else (warnings1, score2)
    { score := max 0 score3, issues := issues1, warnings := warnings2,
      compatibility_features := some (get_client_features client) }

/-- `subject_spam_words` of `check_spam_score`. -/
def subject_spam_words : List String :=
  ["free", "grátis", "urgent", "urgente", "guaranteed", "garantido",
   "act now", "agora", "limited time", "tempo limitado", "click here",
   "clique aqui", "buy now", "compre agora"]

/-- `content_spam_words` of `check_spam_score`. -/
def content_spam_words : List String :=
  ["viagra", "casino", "lottery", "million", "millionaire",
   "inheritance", "nigerian", "prince", "diplomat"]

/-- `suspicious_domains` of `check_spam_score`. -/
def suspicious_domains : List String := ["bit.ly", "tinyurl.com", "t.co"]

/-- Result of `check_spam_score` (`recommendations` is built through a
Python `set` whose iteration order is interpreter-dependent, so it is not
modelled). -/
structure SpamReport where
  spam_score : Nat
  risk_level : String
  factors : List String
deriving DecidableEq, Repr

/-- The `caps_ratio` of `check_spam_score` (`0` for an empty subject,
Python float division modelled by `ℚ`). -/
def caps_ratio (subject : List Char) : ℚ :=
  if subject = [] then 0
  else ((subject.filter (fun c => pyIsUpper c)).length : ℚ) / (subject.length : ℚ)

/-- `check_spam_score`.  Note the exclamation count is taken on `html`,
not on the subject line. -/
def check_spam_score (html subject : List Char) : SpamReport :=
  let subjectLower := subject.map pyLower
  let foundSubject := subject_spam_words.filter (fun w => containsPat id w.data subjectLower)
  let score1 := foundSubject.length
  let factors1 := foundSubject.map (fun w => "Palavra spam no assunto: " ++ sq ++ w ++ sq)
  let (score2, factors2) :=
    if 1/2 < caps_ratio subject then (score1 + 2, factors1 ++ ["Muitas letras maiúsculas no assunto"])
    else (score1, factors1)
  let htmlLower := html.map pyLower
  let foundContent := content_spam_words.filter (fun w => containsPat id w.data htmlLower)
  let score3 := score2 + 3 * foundContent.length
  let factors3 := factors2 ++ foundContent.map (fun w => "Palavra spam no conteúdo: " ++ sq ++ w ++ sq)
  let exclamation_count := countOcc id ['!'] html
  let (score4, factors4) :=
    if 5 < exclamation_count then (score3 + 1, factors3 ++ ["Muitos pontos de exclamação"])
    else (score3, factors3)
  let foundDomains := suspicious_domains.filter (fun d => containsPat id d.data htmlLower)
  let score5 := score4 + 2 * foundDomains.length
  let factors5 := factors4 ++ foundDomains.map (fun d => "Link encurtado detectado: " ++ d)
  let risk_level :=
    if 8 ≤ score5 then "high"
    else if 4 ≤ score5 then "medium"
    else if 1 ≤ score5 then "low"
    else "very_low"
  { spam_score := score5, risk_level := risk_level, factors := factors5 }

/-! ### `HTMLOptimizer._analyze_html_structure` -/

/-- `_estimate_render_time` (float arithmetic modelled by `ℚ`). -/
def estimate_render_time (html : List Char) : ℚ :=
  let base_time : ℚ := 100
  let size_factor : ℚ := (html.length : ℚ) / 1000
  let table_count := countOcc id "<table".data (html.map pyLower)
  let complexity_factor : ℚ := (table_count : ℚ) * 10
  let css_complexity := countOcc id "gradient".data html +
    countOcc id "shadow".data html + countOcc id "transform".data html
  let css_factor : ℚ := (css_complexity : ℚ) * 5
  base_time + size_factor + complexity_factor + css_factor

/-- `_calculate_complexity_score`. -/
def calculate_complexity_score (html : List Char) : Nat :=
  let elements := countOcc id ['<'] (html.map pyLower)
  let tables := countOcc id "<table".data (html.map pyLower)
  let css_properties := countOcc id [':'] html
  let complexity := elements + tables * 2 + css_properties
  if complexity < 50 then 1
  else if complexity < 150 then 2
  else if complexity < 300 then 3
  else 4

/-- The descriptor returned by `_analyze_html_structure`. -/
structure HtmlAnalysis where
  has_doctype : Bool
  has_html_tag : Bool
  has_head : Bool
  has_body : Bool
  has_meta_charset : Bool
  has_meta_viewport : Bool
  has_title : Bool
  uses_tables : Bool
  uses_css : Bool
  has_images : Bool
  has_links : Bool
  estimated_render_time : ℚ
  complexity_score : Nat
  element_count : Nat
  inline_styles_count : Nat
  css_classes_count : Nat
  table_count : Nat
  image_count : Nat
  link_count : Nat
deriving DecidableEq, Repr

/-- `_analyze_html_structure`: pure substring probes and counts. -/
def analyze_html_structure (html : List Char) : HtmlAnalysis :=
  let up := html.map pyUpperChar
  let low := html.map pyLower
  { has_doctype := containsPat id "<!DOCTYPE".data up,
    has_html_tag := containsPat id "<html".data low,
    has_head := containsPat id "<head".data low,
    has_body := containsPat id "<body".data low,
    has_meta_charset := containsPat id "charset".data low,
    has_meta_viewport := containsPat id "viewport".data low,
    has_title := containsPat id "<title".data low,
    uses_tables := containsPat id "<table".data low,
    uses_css := containsPat id "<style".data low || containsPat id "style=".data low,
    has_images := containsPat id "<img".data low,
    has_links := containsPat id "<a".data low,
    estimated_render_time := estimate_render_time html,
    complexity_score := calculate_complexity_score html,
    element_count := countOcc id ['<'] low,
    inline_styles_count := countOcc id "style=".data html,
    css_classes_count := countOcc id "class=".data html,
    table_count := countOcc id "<table".data low,
    image_count := countOcc id "<img".data low,
    link_count := countOcc id "<a".data low }

/-! ### Lemmas about `matchAt`, `containsPat`, `countOcc` and `removeDecl` -/

theorem matchAt_nil (f : Char → Char) (s : List Char) : matchAt f [] s = true := by
  cases s <;> rfl

/-- A match cannot reach into a suffix `B` whose first character is (after
`f`) not a character of the pattern: matching in `X ++ B` is matching
in `X`. -/
theorem matchAt_append_eq (f : Char → Char) (pat X B : List Char)
    (hB : ∀ c, B.head? = some c → f c ∉ pat) :
    matchAt f pat (X ++ B) = matchAt f pat X := by
  induction X generalizing pat with
  | nil =>
    cases pat with
    | nil => simp [matchAt_nil]
    | cons p ps =>
      cases B with
      | nil => rfl
      | cons b bs =>
        have hb : f b ∉ p :: ps := hB b rfl
        have hbp : (f b == p) = false := by
          simp only [beq_eq_false_iff_ne, ne_eq]
          intro hcontr
          exact hb (hcontr ▸ List.mem_cons_self p ps)
        simp [matchAt, hbp]
  | cons x X ih =>
    cases pat with
    | nil => simp [matchAt_nil]
    | cons p ps =>
      have hB2 : ∀ c, B.head? = some c → f c ∉ ps := by
        intro c hc hmem
        exact hB c hc (List.mem_cons_of_mem p hmem)
      simp [matchAt, ih ps hB2]

theorem matchAt_mono {f : Char → Char} {pat X : List Char} (Y : List Char)
    (h : matchAt f pat X = true) : matchAt f pat (X ++ Y) = true := by
  induction pat generalizing X with
  | nil => exact matchAt_nil f _
  | cons p ps ih =>
    cases X with
    | nil => simp [matchAt] at h
    | cons x xs =>
      simp only [matchAt, Bool.and_eq_true] at h ⊢
      exact ⟨h.1, ih h.2⟩

theorem matchAt_of_longer {f : Char → Char} {pat q s : List Char}
    (h : matchAt f (pat ++ q) s = true) : matchAt f pat s = true := by
  induction pat generalizing s with
  | nil => exact matchAt_nil f _
  | cons p ps ih =>
    cases s with
    | nil => simp [matchAt] at h
    | cons c cs =>
      simp only [List.cons_append, matchAt, Bool.and_eq_true] at h ⊢
      exact ⟨h.1, ih h.2⟩

theorem countOcc_nil_of_ne {f : Char → Char} {pat : List Char} (hpat : pat ≠ []) :
    countOcc f pat [] = 0 := by
  cases pat with
  | nil => exact absurd rfl hpat
  | cons p ps => rfl

/-- When no match can span the boundary, occurrence counts add over
concatenation. -/
theorem countOcc_append {f : Char → Char} {pat : List Char} (A B : List Char)
    (hpat : pat ≠ []) (hB : ∀ c, B.head? = some c → f c ∉ pat) :
    countOcc f pat (A ++ B) = countOcc f pat A + countOcc f pat B := by
  induction A with
  | nil => simp [countOcc_nil_of_ne hpat]
  | cons a A ih =>
    have hm : matchAt f pat (a :: (A ++ B)) = matchAt f pat (a :: A) := by
      have h := matchAt_append_eq f pat (a :: A) B hB
      rwa [List.cons_append] at h
    rw [List.cons_append]
    simp only [countOcc]
    rw [hm, ih]
    omega

theorem containsPat_iff_countOcc {f : Char → Char} {pat s : List Char} (hpat : pat ≠ []) :
    containsPat f pat s = true ↔ 0 < countOcc f pat s := by
  induction s with
  | nil =>
    have hemp : pat.isEmpty = false := by
      cases pat with
      | nil => exact absurd rfl hpat
      | cons p ps => rfl
    simp [containsPat, countOcc, hemp]
  | cons c cs ih =>
    simp only [containsPat, countOcc, Bool.or_eq_true]
    cases h : matchAt f pat (c :: cs) <;> simp [h, ih]

theorem containsPat_append_left {f : Char → Char} {pat A : List Char} (B : List Char)
    (h : containsPat f pat A = true) : containsPat f pat (A ++ B) = true := by
  induction A with
  | nil =>
    cases pat with
    | nil => cases B <;> simp [containsPat, matchAt_nil]
    | cons p ps => simp [containsPat] at h
  | cons a A ih =>
    simp only [containsPat, Bool.or_eq_true] at h
    rcases h with h | h
    · have := matchAt_mono B h
      simp only [List.cons_append, containsPat, Bool.or_eq_true]
      left
      simpa using this
    · simp only [List.cons_append, containsPat, Bool.or_eq_true]
      exact Or.inr (ih h)

theorem containsPat_append_right {f : Char → Char} {pat B : List Char} (A : List Char)
    (h : containsPat f pat B = true) : containsPat f pat (A ++ B) = true := by
  induction A with
  | nil => simpa using h
  | cons a A ih =>
    simp only [List.cons_append, containsPat, Bool.or_eq_true]
    exact Or.inr ih

/-- Boundary-free split of a containment test over a concatenation. -/
theorem containsPat_append_false {f : Char → Char} {pat : List Char} (A B : List Char)
    (hpat : pat ≠ []) (hB : ∀ c, B.head? = some c → f c ∉ pat)
    (hA2 : containsPat f pat A = false) (hB2 : containsPat f pat B = false) :
    containsPat f pat (A ++ B) = false := by
  by_contra hcontr
  have h1 : containsPat f pat (A ++ B) = true := by
    cases h : containsPat f pat (A ++ B)
    · exact absurd h hcontr
    · rfl
  have h2 := (containsPat_iff_countOcc hpat).mp h1
  rw [countOcc_append A B hpat hB] at h2
  have hA3 : countOcc f pat A = 0 := by
    by_contra hc
    have := (containsPat_iff_countOcc hpat).mpr (Nat.pos_of_ne_zero hc)
    rw [hA2] at this
    cases this
  have hB3 : countOcc f pat B = 0 := by
    by_contra hc
    have := (containsPat_iff_countOcc hpat).mpr (Nat.pos_of_ne_zero hc)
    rw [hB2] at this
    cases this
  omega

theorem containsPat_take {f : Char → Char} {pat s : List Char} (n : Nat)
    (h : containsPat f pat (s.take n) = true) : containsPat f pat s = true := by
  have := containsPat_append_left (s.drop n) h
  rwa [List.take_append_drop] at this

theorem containsPat_mono_pattern {f : Char → Char} {pat q s : List Char}
    (h : containsPat f (pat ++ q) s = true) : containsPat f pat s = true := by
  induction s with
  | nil =>
    simp only [containsPat, List.isEmpty_eq_true, List.append_eq_nil] at h
    simp [containsPat, h.1]
  | cons c cs ih =>
    simp only [containsPat, Bool.or_eq_true] at h ⊢
    rcases h with h | h
    · exact Or.inl (matchAt_of_longer h)
    · exact Or.inr (ih h)

theorem containsPat_longer_false {f : Char → Char} {pat q s : List Char}
    (h : containsPat f pat s = false) : containsPat f (pat ++ q) s = false := by
  cases hq : containsPat f (pat ++ q) s
  · rfl
  · rw [containsPat_mono_pattern hq] at h
    cases h

theorem matchDeclTail_some_matchAt {prop s r : List Char}
    (h : matchDeclTail prop s = some r) : matchAt pyLower prop s = true := by
  unfold matchDeclTail at h
  split at h
  · assumption
  · cases h

/-- The fuel argument of `removeDeclGo` is irrelevant once it covers the
input length. -/
theorem removeDeclGo_irrel {prop : List Char} :
    ∀ (f1 : Nat) {f2 : Nat} {s : List Char}, s.length ≤ f1 → s.length ≤ f2 →
      removeDeclGo prop f1 s = removeDeclGo prop f2 s := by
  intro f1
  induction f1 with
  | zero =>
    intro f2 s h1 _
    have hs : s = [] := List.eq_nil_of_length_eq_zero (Nat.le_zero.mp h1)
    subst hs
    cases f2 <;> rfl
  | succ f ih =>
    intro f2 s h1 h2
    cases s with
    | nil => cases f2 <;> rfl
    | cons c cs =>
      cases f2 with
      | zero => simp at h2
      | succ g =>
        simp only [removeDeclGo]
        cases hm : matchDeclTail prop (c :: cs) with
        | some rest =>
          have hr := matchDeclTail_length hm
          simp only [List.length_cons] at h1 h2 hr
          exact ih (by omega) (by omega)
        | none =>
          simp only [List.length_cons] at h1 h2
          exact congrArg (c :: ·) (ih (by omega) (by omega))

theorem removeDeclGo_of_not_contains {prop : List Char} :
    ∀ (fuel : Nat) {s : List Char}, s.length ≤ fuel →
      containsPat pyLower prop s = false → removeDeclGo prop fuel s = s := by
  intro fuel
  induction fuel with
  | zero =>
    intro s h1 _
    have hs : s = [] := List.eq_nil_of_length_eq_zero (Nat.le_zero.mp h1)
    subst hs
    rfl
  | succ f ih =>
    intro s h1 h
    cases s with
    | nil => rfl
    | cons c cs =>
      simp only [containsPat, Bool.or_eq_false_iff] at h
      have h3 : matchDeclTail prop (c :: cs) = none := by
        unfold matchDeclTail
        rw [h.1]
        simp
      simp only [removeDeclGo, h3]
      simp only [List.length_cons] at h1
      exact congrArg (c :: ·) (ih (by omega) h.2)

/-- A `re.sub` pass for `prop\s*:[^;]+;` is the identity on a string with
no case-insensitive occurrence of the property name. -/
theorem removeDecl_of_not_contains {prop s : List Char}
    (h : containsPat pyLower prop s = false) : removeDecl prop s = s :=
  removeDeclGo_of_not_contains s.length (Nat.le_refl _) h

theorem removeDeclGo_append {prop B : List Char}
    (hB : ∀ c, B.head? = some c → pyLower c ∉ prop) :
    ∀ {fuel : Nat} (A : List Char), (A ++ B).length ≤ fuel →
      containsPat pyLower prop A = false →
      removeDeclGo prop fuel (A ++ B) = A ++ removeDecl prop B := by
  intro fuel
  induction fuel with
  | zero =>
    intro A h1 _
    have : A ++ B = [] := List.eq_nil_of_length_eq_zero (Nat.le_zero.mp h1)
    rcases List.append_eq_nil.mp this with ⟨hA, hBnil⟩
    subst hA
    subst hBnil
    rfl
  | succ f ih =>
    intro A h1 hA
    cases A with
    | nil =>
      simp only [List.nil_append]
      exact removeDeclGo_irrel (f + 1) (by simpa using h1) (Nat.le_refl _)
    | cons a A =>
      simp only [containsPat, Bool.or_eq_false_iff] at hA
      rw [List.cons_append]
      have hm : matchAt pyLower prop (a :: (A ++ B)) = false := by
        have h := matchAt_append_eq pyLower prop (a :: A) B hB
        rw [List.cons_append] at h
        rw [h]
        exact hA.1
      have h3 : matchDeclTail prop (a :: (A ++ B)) = none := by
        unfold matchDeclTail
        rw [hm]
        simp
      simp only [removeDeclGo, h3]
      simp only [List.length_cons, List.length_append] at h1
      rw [ih A (by simp [List.length_append]; omega) hA.2, List.cons_append]

/-- A `re.sub` pass for `prop\s*:[^;]+;` walks untouched over a prefix in
which the property name does not occur and into which no boundary-spanning
occurrence can reach. -/
theorem removeDecl_append {prop : List Char} (A B : List Char)
    (hA : containsPat pyLower prop A = false)
    (hB : ∀ c, B.head? = some c → pyLower c ∉ prop) :
    removeDecl prop (A ++ B) = A ++ removeDecl prop B :=
  removeDeclGo_append hB A (Nat.le_refl _) hA

/-! ### The real pipeline in closed form -/

theorem clientLoop_real (clients : List String) :
    ∀ (css html : List Char) (opts : List String),
      clientLoop realSteps clients css html opts =
        .ok (clientLoopPure clients (css, html, opts)) := by
  induction clients with
  | nil => intro css html opts; rfl
  | cons c rest ih =>
    intro css html opts
    simp only [clientLoop, clientLoopPure]
    split
    · exact ih _ _ _
    · exact ih _ _ _

theorem pipelineBody_real (html : List Char) (clients : List String) (dm mf : Bool) :
    pipelineBody realSteps html clients dm mf = .ok (optimizePure html clients dm mf) := by
  have hloop := clientLoop_real clients (extract_css_from_html html)
    (extract_html_without_css html) []
  simp only [realSteps] at hloop
  simp only [pipelineBody, realSteps, optimizePure]
  rw [hloop]

theorem optimize_real (html : List Char) (clients : List String) (dm mf : Bool) :
    optimize_for_email_clients realSteps html clients dm mf = optimizePure html clients dm mf := by
  unfold optimize_for_email_clients
  rw [pipelineBody_real]

/-! ### Propagation of "no Outlook-unsupported property name occurs" -/

/-- No case-insensitive occurrence of any of the six Outlook-unsupported
property names. -/
def outlookFree (s : List Char) : Prop :=
  ∀ p ∈ outlook_unsupported, containsPat pyLower p s = false

instance (s : List Char) : Decidable (outlookFree s) := by
  unfold outlookFree
  infer_instance

theorem outlook_props_ne_nil : ∀ p ∈ outlook_unsupported, p ≠ [] := by decide

theorem boundary_of_head {f : Char → Char} {B : List Char} {b : Char}
    (hb : B.head? = some b) {pat : List Char} (hnot : f b ∉ pat) :
    ∀ c, B.head? = some c → f c ∉ pat := by
  intro c hc
  rw [hb] at hc
  injection hc with h
  subst h
  exact hnot

theorem outlookFree_append {A B : List Char} {b : Char} (hA : outlookFree A)
    (hB : outlookFree B) (hhead : B.head? = some b)
    (hb : ∀ p ∈ outlook_unsupported, pyLower b ∉ p) :
    outlookFree (A ++ B) := by
  intro p hp
  exact containsPat_append_false A B (outlook_props_ne_nil p hp)
    (boundary_of_head hhead (hb p hp)) (hA p hp) (hB p hp)

theorem outlookFree_take {s : List Char} (n : Nat) (h : outlookFree s) :
    outlookFree (s.take n) := by
  intro p hp
  cases hres : containsPat pyLower p (s.take n) with
  | false => rfl
  | true =>
    have h2 := containsPat_take n hres
    rw [h p hp] at h2
    cases h2

/-- A fold of `removeDecl` passes is the identity on a string containing
none of the property names. -/
theorem removeList_id {X : List Char} :
    ∀ (ps : List (List Char)), (∀ p ∈ ps, containsPat pyLower p X = false) →
      ps.foldl (fun acc p => removeDecl p acc) X = X := by
  intro ps
  induction ps with
  | nil => intro _; rfl
  | cons p ps ih =>
    intro h
    simp only [List.foldl_cons]
    rw [removeDecl_of_not_contains (h p (List.mem_cons_self p ps))]
    exact ih (fun q hq => h q (List.mem_cons_of_mem p hq))

theorem removeAllOutlook_id {X : List Char} (hX : outlookFree X) :
    removeAllOutlook X = X :=
  removeList_id outlook_unsupported hX

/-- Each per-client CSS transform preserves absence of the six property
names (Outlook removes and appends a clean block, Gmail appends a clean
block, Yahoo truncates and appends `"..."`). -/
theorem per_client_free (css html : List Char) (client : String) (h : outlookFree css) :
    outlookFree (optimize_for_specific_client css html client).css := by
  unfold optimize_for_specific_client
  split_ifs with h1 h2 h3 h4
  · show outlookFree (optimize_css_for_outlook css)
    unfold optimize_css_for_outlook
    rw [removeAllOutlook_id h]
    exact outlookFree_append h (by decide) rfl (by decide)
  · show outlookFree (optimize_css_for_gmail css)
    unfold optimize_css_for_gmail
    exact outlookFree_append h (by decide) rfl (by decide)
  · exact h
  · show outlookFree (optimize_css_for_yahoo css)
    unfold optimize_css_for_yahoo
    split
    · exact outlookFree_append (outlookFree_take 30000 h) (by decide) rfl (by decide)
    · exact h
  · exact h

theorem clientLoopPure_free (clients : List String) :
    ∀ acc : List Char × List Char × List String, outlookFree acc.1 →
      outlookFree (clientLoopPure clients acc).1 := by
  induction clients with
  | nil => intro acc h; exact h
  | cons c rest ih =>
    intro acc h
    rcases acc with ⟨css, html, opts⟩
    simp only [clientLoopPure]
    split
    · exact ih _ (per_client_free css html c h)
    · exact ih _ h

/-- Re-applying the Outlook transform to a name-free string leaves no
`prop:` occurrence. -/
theorem reapply_clean_of_free {X : List Char} (hX : outlookFree X) :
    ∀ p ∈ outlook_unsupported,
      containsPat pyLower (p ++ [':']) (optimize_css_for_outlook X) = false := by
  intro p hp
  unfold optimize_css_for_outlook
  rw [removeAllOutlook_id hX]
  refine containsPat_append_false X _ ?_ ?_ ?_ ?_
  · revert hp
    revert p
    decide
  · refine boundary_of_head (show outlookAppendCss.data.head? = some '\n' by decide) ?_
    revert hp
    revert p
    decide
  · exact containsPat_longer_false (hX p hp)
  · revert hp
    revert p
    decide

/-- Re-applying the Outlook transform after the mobile block has been
appended: its single `border-radius` declaration is removed again, and the
result has no `prop:` occurrence. -/
theorem reapply_clean_mobile {X : List Char} (hX : outlookFree X) :
    ∀ p ∈ outlook_unsupported,
      containsPat pyLower (p ++ [':'])
        (optimize_css_for_outlook (X ++ mobileCss.data)) = false := by
  have hstep1 : removeDecl "border-radius".data (X ++ mobileCss.data) =
      X ++ removeDecl "border-radius".data mobileCss.data :=
    removeDecl_append X mobileCss.data (hX _ (by decide))
      (boundary_of_head (show mobileCss.data.head? = some '\n' by decide) (by decide))
  have hfree1 : outlookFree (X ++ removeDecl "border-radius".data mobileCss.data) :=
    outlookFree_append hX (by decide)
      (show (removeDecl "border-radius".data mobileCss.data).head? = some '\n' by decide)
      (by decide)
  have hfold : removeAllOutlook (X ++ mobileCss.data) =
      X ++ removeDecl "border-radius".data mobileCss.data := by
    unfold removeAllOutlook outlook_unsupported
    simp only [List.foldl_cons]
    rw [hstep1]
    exact removeList_id _ (fun q hq => hfree1 q (List.mem_cons_of_mem _ hq))
  intro p hp
  unfold optimize_css_for_outlook
  rw [hfold, List.append_assoc]
  refine containsPat_append_false X _ ?_ ?_ ?_ ?_
  · revert hp
    revert p
    decide
  · refine boundary_of_head
      (show (removeDecl "border-radius".data mobileCss.data ++ outlookAppendCss.data).head?
        = some '\n' by decide) ?_
    revert hp
    revert p
    decide
  · exact containsPat_longer_false (hX p hp)
  · revert hp
    revert p
    decide

/-! ### Claim theorems -/

/-- A document satisfying every requirement of the round-trip scenario:
DOCTYPE, `<html>`, `<head>` with charset and viewport metas, `<body>`,
a `<table>`. -/
def roundTripDoc : String :=
  "<!DOCTYPE html><html><head><meta charset=\"UTF-8\"><meta name=\"viewport\" content=\"width=device-width\"></head><body><table></table></body></html>"

/-- C1: the structural validator is claimed to give this document score
100, `valid = true` and no issues or warnings.  The code instead tests the
lower-case probes `"<html"`, `"<head"`, `"<body"` against `html.upper()`,
which can never succeed, so every document — including this fully
conforming one — receives the three "Missing ..." issues (−60), plus the
max-width warning (−10): score 30 and `valid = false`.  The code
contradicts its own issue messages ("Missing `<html>` tag" on a document
containing `<html>`), so the claim records a code bug. -/
theorem claim_C1_structural_validator_miscased_probes :
    validate_html_structure roundTripDoc.data =
      { valid := false,
        score := 30,
        issues := ["Missing <html> tag", "Missing <head> section", "Missing <body> tag"],
        warnings := ["No max-width specified for email container"] } := by
  decide

/-- C2 counterexample: the client id `"foo"` is outside the enumeration,
yet no `UnknownClientError` exists anywhere in the code: the optimizer
loop silently skips the client (identity on CSS, HTML and labels, same
output CSS as an empty client list) and the per-client validator returns
the default score-80 report. -/
theorem claim_C2_counterexample :
    clientLoopPure ["foo"] ("a".data, "b".data, []) = ("a".data, "b".data, []) ∧
    validate_for_client "<html></html>".data "foo" =
      { score := 80, issues := [], warnings := [], compatibility_features := none } ∧
    (optimize_for_email_clients realSteps "<html></html>".data ["foo"] true true).css =
      (optimize_for_email_clients realSteps "<html></html>".data [] true true).css := by
  decide

/-- C2 (amended): for every client identifier outside the five-element
enumeration, the optimizer pass is a silent no-op (no transform, no label,
no error) and `_validate_for_client` returns the fixed default
`{score := 80, issues := [], warnings := []}` instead of surfacing an
`UnknownClientError`. -/
theorem claim_C2_unknown_clients_silently_defaulted (client : String)
    (h : client ∉ ["gmail", "outlook", "apple_mail", "yahoo", "thunderbird"]) :
    (∀ css html opts, clientLoopPure [client] (css, html, opts) = (css, html, opts)) ∧
    (∀ html, validate_for_client html client =
      { score := 80, issues := [], warnings := [], compatibility_features := none }) := by
  simp only [List.mem_cons, List.not_mem_nil, or_false, not_or] at h
  obtain ⟨hg, ho, ha, hy, ht⟩ := h
  have h4 : client ∉ email_client_compatibility_keys := by
    simp only [email_client_compatibility_keys, List.mem_cons, List.not_mem_nil,
      or_false, not_or]
    exact ⟨hg, ho, ha, hy⟩
  have h5 : email_client_rules client = none := by
    unfold email_client_rules
    rw [if_neg hg, if_neg ho, if_neg ha, if_neg hy, if_neg ht]
  refine ⟨?_, ?_⟩
  · intro css html opts
    simp [clientLoopPure, h4]
  · intro html
    unfold validate_for_client
    rw [h5]

/-- C2 witness: the amended statement applied to the concrete unknown
client `"foo"`. -/
theorem claim_C2_witness :
    clientLoopPure ["foo"] ("x".data, "y".data, []) = ("x".data, "y".data, []) ∧
    validate_for_client "z".data "foo" =
      { score := 80, issues := [], warnings := [], compatibility_features := none } :=
  ⟨(claim_C2_unknown_clients_silently_defaulted "foo" (by decide)).1 _ _ _,
   (claim_C2_unknown_clients_silently_defaulted "foo" (by decide)).2 _⟩

/-- The subject line of the spam scenario. -/
def spamSubject : String := "GRÁTIS AGORA!!! CLIQUE AQUI"

theorem caps_ratio_spamSubject : caps_ratio spamSubject.data = 21 / 27 := by
  unfold caps_ratio
  rw [if_neg (by decide : ¬ spamSubject.data = [])]
  rw [show ((spamSubject.data).filter (fun c => pyIsUpper c)).length = 21 by decide]
  rw [show (spamSubject.data).length = 27 by decide]
  norm_num

theorem caps_ratio_spamSubject_gt_half : (1 : ℚ) / 2 < caps_ratio spamSubject.data := by
  rw [caps_ratio_spamSubject]
  norm_num

/-- C3 counterexample: for the empty HTML body (no content spam words, no
shortened links, zero `!` characters) and the scenario subject, the code
returns spam score 5 (three subject trigger words at +1 each, +2 for the
capitals ratio 21/27 > 0.5) and risk `"medium"` — not a score ≥ 8 with
risk `"high"` as the claim states: the exclamation bonus reads the HTML
body, not the subject. -/
theorem claim_C3_counterexample :
    (check_spam_score [] spamSubject.data).spam_score = 5 ∧
    (check_spam_score [] spamSubject.data).risk_level = "medium" := by
  have hfs : subject_spam_words.filter
      (fun w => containsPat id w.data ((spamSubject.data).map pyLower)) =
      ["grátis", "agora", "clique aqui"] := by decide
  simp only [check_spam_score, hfs, if_pos caps_ratio_spamSubject_gt_half]
  decide

/-- C3 (amended): for every HTML body with no content spam word, no
shortened-link domain and at most five `!` characters, the subject
`"GRÁTIS AGORA!!! CLIQUE AQUI"` scores exactly 5 (three trigger words plus
the capitals bonus; the exclamation factor counts `!` in the HTML body, so
it contributes nothing here) and the risk tier is `"medium"`. -/
theorem claim_C3_spam_score_is_medium (html : List Char)
    (hc : ∀ w ∈ content_spam_words, containsPat id w.data (html.map pyLower) = false)
    (hd : ∀ d ∈ suspicious_domains, containsPat id d.data (html.map pyLower) = false)
    (he : countOcc id ['!'] html ≤ 5) :
    (check_spam_score html spamSubject.data).spam_score = 5 ∧
    (check_spam_score html spamSubject.data).risk_level = "medium" := by
  have hfs : subject_spam_words.filter
      (fun w => containsPat id w.data ((spamSubject.data).map pyLower)) =
      ["grátis", "agora", "clique aqui"] := by decide
  have hfc : content_spam_words.filter
      (fun w => containsPat id w.data (html.map pyLower)) = [] := by
    rw [List.filter_eq_nil_iff]
    intro w hw
    rw [hc w hw]
    simp
  have hfd : suspicious_domains.filter
      (fun d => containsPat id d.data (html.map pyLower)) = [] := by
    rw [List.filter_eq_nil_iff]
    intro d hdm
    rw [hd d hdm]
    simp
  have hex : ¬ 5 < countOcc id ['!'] html := by omega
  simp only [check_spam_score, hfs, hfc, hfd, if_pos caps_ratio_spamSubject_gt_half,
    if_neg hex]
  decide

/-- C3 witness: the amended statement applied to the empty HTML body. -/
theorem claim_C3_witness :
    (check_spam_score [] spamSubject.data).spam_score = 5 ∧
    (check_spam_score [] spamSubject.data).risk_level = "medium" :=
  claim_C3_spam_score_is_medium [] (by decide) (by decide) (by decide)

/-- C4 counterexample: for a CSS string of 30001 characters the Yahoo
transform returns 30003 characters (the first 30000 plus a literal
`"..."`), not the exact 30000-character hard cut the claim states. -/
theorem claim_C4_counterexample :
    (optimize_css_for_yahoo (List.replicate 30001 'a')).length = 30003 ∧
    optimize_css_for_yahoo (List.replicate 30001 'a') ≠
      (List.replicate 30001 'a').take 30000 := by
  have he : optimize_css_for_yahoo (List.replicate 30001 'a') =
      (List.replicate 30001 'a').take 30000 ++ "...".data := by
    unfold optimize_css_for_yahoo
    rw [if_pos (by rw [List.length_replicate]; omega)]
  have hL : ((List.replicate 30001 'a').take 30000 ++ "...".data).length = 30003 := by
    rw [List.length_append, List.length_take, List.length_replicate]
    rw [Nat.min_eq_left (by omega : 30000 ≤ 30001)]
    rfl
  have hT : ((List.replicate 30001 'a').take 30000).length = 30000 := by
    rw [List.length_take, List.length_replicate]
    exact Nat.min_eq_left (by omega)
  refine ⟨he ▸ hL, ?_⟩
  rw [he]
  intro hcontr
  have h2 := congrArg List.length hcontr
  rw [hL, hT] at h2
  omega

/-- C4 (amended): CSS longer than 30000 characters is cut to its first
30000 characters with `"..."` appended (total length 30003); CSS of at
most 30000 characters is returned unchanged. -/
theorem claim_C4_yahoo_truncation (css : List Char) :
    (30000 < css.length →
      optimize_css_for_yahoo css = css.take 30000 ++ "...".data ∧
      (optimize_css_for_yahoo css).length = 30003) ∧
    (css.length ≤ 30000 → optimize_css_for_yahoo css = css) := by
  constructor
  · intro h
    have he : optimize_css_for_yahoo css = css.take 30000 ++ "...".data := by
      unfold optimize_css_for_yahoo
      rw [if_pos h]
    refine ⟨he, ?_⟩
    rw [he]
    rw [List.length_append, List.length_take]
    have hm : min 30000 css.length = 30000 := Nat.min_eq_left (by omega)
    rw [hm]
    rfl
  · intro h
    unfold optimize_css_for_yahoo
    rw [if_neg (by omega)]

/-- C4 witness: the amended statement applied to a 30001-character string
and to a short string. -/
theorem claim_C4_witness :
    (optimize_css_for_yahoo (List.replicate 30001 'a')).length = 30003 ∧
    optimize_css_for_yahoo "ab".data = "ab".data :=
  ⟨((claim_C4_yahoo_truncation (List.replicate 30001 'a')).1
      (by rw [List.length_replicate]; omega)).2,
   (claim_C4_yahoo_truncation "ab".data).2 (by decide)⟩

/-- An input with an Outlook-unsupported property (a complete,
semicolon-terminated `border-radius` declaration) and no `!important`. -/
def htmlX5 : String := "<style>a\x7bborder-radius: 5px;\x7d</style>"

/-- An input whose `border-radius` declaration lacks a terminating
semicolon, so the Outlook removal pass behaves differently depending on
what has already been appended after it. -/
def htmlY5 : String := "<style>a\x7bborder-radius:b</style>"

/-- C5 counterexample: `htmlX5` satisfies both hypotheses of the claim
(an Outlook-unsupported property is present, `!important` is absent), yet
the orders `[outlook, gmail]` and `[gmail, outlook]` produce output CSS of
the same byte length: Gmail's pass only appends a fixed reset block (it
injects no `!important`), so both orders append the same blocks. -/
theorem claim_C5_counterexample :
    containsPat id "!important".data htmlX5.data = false ∧
    containsPat pyLower "border-radius".data (extract_css_from_html htmlX5.data) = true ∧
    (optimize_for_email_clients realSteps htmlX5.data ["outlook", "gmail"] true true).css.length =
      (optimize_for_email_clients realSteps htmlX5.data ["gmail", "outlook"] true true).css.length := by
  decide

/-- C5 (amended): the per-client passes are order-sensitive only for some
inputs satisfying the claim's hypotheses.  For `htmlX5` (complete
declaration) the two orders agree on output byte length; for `htmlY5`
(declaration without a closing semicolon, which the Outlook pass removes
together with part of Gmail's appended reset when Gmail runs first) they
differ. -/
theorem claim_C5_order_sensitivity_only_sometimes :
    (containsPat id "!important".data htmlX5.data = false ∧
     containsPat pyLower "border-radius".data (extract_css_from_html htmlX5.data) = true ∧
     (optimize_for_email_clients realSteps htmlX5.data ["outlook", "gmail"] true true).css.length =
       (optimize_for_email_clients realSteps htmlX5.data ["gmail", "outlook"] true true).css.length) ∧
    (containsPat id "!important".data htmlY5.data = false ∧
     containsPat pyLower "border-radius".data (extract_css_from_html htmlY5.data) = true ∧
     (optimize_for_email_clients realSteps htmlY5.data ["outlook", "gmail"] true true).css.length ≠
       (optimize_for_email_clients realSteps htmlY5.data ["gmail", "outlook"] true true).css.length) := by
  decide

/-- An input showing that a single Outlook removal pass can leave a
complete unsupported declaration behind: removing the inner
`border-radius:b;` splices `border-r` and `adius:c;` together into a new
`border-radius:c;` which the single left-to-right pass never revisits.
The two media-query markers are included so that the enhancement step
appends nothing. -/
def htmlC6 : String :=
  "<style>@media (prefers-color-scheme: dark)@media only screen and (max-width: 600px)border-rborder-radius:b;adius:c;</style>"

/-- C6 counterexample: re-applying the Outlook CSS transform to the CSS
produced by the pipeline (clients `["apple_mail"]`, a subset of the five)
yields CSS that still contains `border-radius:` — even as a complete
semicolon-terminated declaration. -/
theorem claim_C6_counterexample :
    containsPat id "border-radius:".data
      (optimize_css_for_outlook
        (optimize_for_email_clients realSteps htmlC6.data ["apple_mail"] true true).css) = true ∧
    containsPat id "border-radius:c;".data
      (optimize_css_for_outlook
        (optimize_for_email_clients realSteps htmlC6.data ["apple_mail"] true true).css) = true := by
  decide

/-- C6 (amended): for every HTML input whose extracted CSS contains no
case-insensitive occurrence of any of the six unsupported property names,
and every client list and flag combination, re-applying the Outlook CSS
transform to the pipeline's output CSS yields CSS with no occurrence of
`border-radius:`, `box-shadow:`, `text-shadow:`, `transform:`,
`transition:` or `animation:` (the mobile-breakpoint block's own
`border-radius` declaration is removed again by the re-applied pass). -/
theorem claim_C6_outlook_reapply_clean (html : List Char) (clients : List String)
    (dm mf : Bool) (h : outlookFree (extract_css_from_html html)) :
    ∀ p ∈ outlook_unsupported,
      containsPat pyLower (p ++ [':'])
        (optimize_css_for_outlook
          (optimize_for_email_clients realSteps html clients dm mf).css) = false := by
  rw [optimize_real]
  have hC : outlookFree (clientLoopPure clients
      (extract_css_from_html html, extract_html_without_css html, [])).1 :=
    clientLoopPure_free clients _ h
  show ∀ p ∈ outlook_unsupported,
    containsPat pyLower (p ++ [':'])
      (optimize_css_for_outlook
        (apply_modern_enhancements
          (clientLoopPure clients
            (extract_css_from_html html, extract_html_without_css html, [])).1
          (clientLoopPure clients
            (extract_css_from_html html, extract_html_without_css html, [])).2.1
          dm mf).css) = false
  generalize hCdef : (clientLoopPure clients
    (extract_css_from_html html, extract_html_without_css html, [])).1 = C at hC ⊢
  generalize (clientLoopPure clients
    (extract_css_from_html html, extract_html_without_css html, [])).2.1 = H
  unfold apply_modern_enhancements
  cases h1 : (dm && !containsPat id darkMarker.data C) with
  | false =>
    simp only [Bool.false_eq_true, if_false]
    cases h2 : (mf && !containsPat id mobileMarker.data C) with
    | false =>
      simp only [Bool.false_eq_true, if_false]
      exact reapply_clean_of_free hC
    | true =>
      simp only [if_true]
      exact reapply_clean_mobile hC
  | true =>
    simp only [if_true]
    have hCD : outlookFree (C ++ darkModeCss.data) :=
      outlookFree_append hC (by decide) rfl (by decide)
    cases h2 : (mf && !containsPat id mobileMarker.data (C ++ darkModeCss.data)) with
    | false =>
      simp only [Bool.false_eq_true, if_false]
      exact reapply_clean_of_free hCD
    | true =>
      simp only [if_true]
      exact reapply_clean_mobile hCD

/-- C6 witness: the amended statement applied to a concrete document with
clean CSS and clients `["outlook", "gmail"]`. -/
theorem claim_C6_witness :
    outlookFree (extract_css_from_html "<style>p \x7b color: red; \x7d</style>".data) ∧
    ∀ p ∈ outlook_unsupported,
      containsPat pyLower (p ++ [':'])
        (optimize_css_for_outlook
          (optimize_for_email_clients realSteps "<style>p \x7b color: red; \x7d</style>".data
            ["outlook", "gmail"] true true).css) = false :=
  ⟨by decide,
   claim_C6_outlook_reapply_clean "<style>p \x7b color: red; \x7d</style>".data
     ["outlook", "gmail"] true true (by decide)⟩

/-! ### Support for the enhancement idempotence property (C7) -/

theorem enhance_dark_present (css html : List Char) :
    containsPat id darkMarker.data (apply_modern_enhancements css html true true).css = true := by
  unfold apply_modern_enhancements
  cases h1 : containsPat id darkMarker.data css with
  | true =>
    simp only [h1, Bool.not_true, Bool.and_false, Bool.false_eq_true, if_false]
    cases h2 : containsPat id mobileMarker.data css with
    | true =>
      simp only [h2, Bool.not_true, Bool.and_false, Bool.false_eq_true, if_false]
      exact h1
    | false =>
      simp only [h2, Bool.not_false, Bool.and_true, if_true]
      exact containsPat_append_left mobileCss.data h1
  | false =>
    simp only [h1, Bool.not_false, Bool.and_true, if_true]
    have hd : containsPat id darkMarker.data (css ++ darkModeCss.data) = true :=
      containsPat_append_right css (by decide)
    cases h2 : containsPat id mobileMarker.data (css ++ darkModeCss.data) with
    | true =>
      simp only [h2, Bool.not_true, Bool.and_false, Bool.false_eq_true, if_false]
      exact hd
    | false =>
      simp only [h2, Bool.not_false, Bool.and_true, if_true]
      exact containsPat_append_left mobileCss.data hd

theorem enhance_mobile_present (css html : List Char) :
    containsPat id mobileMarker.data (apply_modern_enhancements css html true true).css = true := by
  unfold apply_modern_enhancements
  cases h1 : containsPat id darkMarker.data css with
  | true =>
    simp only [h1, Bool.not_true, Bool.and_false, Bool.false_eq_true, if_false]
    cases h2 : containsPat id mobileMarker.data css with
    | true =>
      simp only [h2, Bool.not_true, Bool.and_false, Bool.false_eq_true, if_false]
    | false =>
      simp only [h2, Bool.not_false, Bool.and_true, if_true]
      exact containsPat_append_right css (by decide)
  | false =>
    simp only [h1, Bool.not_false, Bool.and_true, if_true]
    cases h2 : containsPat id mobileMarker.data (css ++ darkModeCss.data) with
    | true =>
      simp only [h2, Bool.not_true, Bool.and_false, Bool.false_eq_true, if_false]
    | false =>
      simp only [h2, Bool.not_false, Bool.and_true, if_true]
      exact containsPat_append_right (css ++ darkModeCss.data) (by decide)

theorem enhance_noop_of_markers (c h2 : List Char)
    (hd : containsPat id darkMarker.data c = true)
    (hm : containsPat id mobileMarker.data c = true) :
    apply_modern_enhancements c h2 true true = { css := c, html := h2, enhancements := [] } := by
  unfold apply_modern_enhancements
  simp [hd, hm]

theorem countOcc_zero_of_not_contains {f : Char → Char} {pat s : List Char}
    (hpat : pat ≠ []) (h : containsPat f pat s = false) : countOcc f pat s = 0 := by
  by_contra hc
  have := (containsPat_iff_countOcc hpat).mpr (Nat.pos_of_ne_zero hc)
  rw [h] at this
  cases this

theorem not_contains_of_countOcc_zero {f : Char → Char} {pat s : List Char}
    (hpat : pat ≠ []) (h : countOcc f pat s = 0) : containsPat f pat s = false := by
  cases hc : containsPat f pat s with
  | false => rfl
  | true =>
    have := (containsPat_iff_countOcc hpat).mp hc
    omega

theorem enhance_dark_count (css html : List Char)
    (h0 : countOcc id darkMarker.data css = 0) :
    countOcc id darkMarker.data (apply_modern_enhancements css html true true).css = 1 := by
  have h1 : containsPat id darkMarker.data css = false :=
    not_contains_of_countOcc_zero (by decide) h0
  have hcount1 : countOcc id darkMarker.data (css ++ darkModeCss.data) = 1 := by
    rw [countOcc_append css darkModeCss.data (by decide)
      (boundary_of_head (show darkModeCss.data.head? = some '\n' by decide) (by decide)), h0]
    decide
  unfold apply_modern_enhancements
  simp only [h1, Bool.not_false, Bool.and_true, if_true]
  cases h2 : containsPat id mobileMarker.data (css ++ darkModeCss.data) with
  | true =>
    simp only [h2, Bool.not_true, Bool.and_false, Bool.false_eq_true, if_false]
    exact hcount1
  | false =>
    simp only [h2, Bool.not_false, Bool.and_true, if_true]
    rw [countOcc_append _ mobileCss.data (by decide)
      (boundary_of_head (show mobileCss.data.head? = some '\n' by decide) (by decide)),
      hcount1]
    decide

theorem enhance_mobile_count (css html : List Char)
    (h0 : countOcc id mobileMarker.data css = 0) :
    countOcc id mobileMarker.data (apply_modern_enhancements css html true true).css = 1 := by
  have h1 : containsPat id mobileMarker.data css = false :=
    not_contains_of_countOcc_zero (by decide) h0
  unfold apply_modern_enhancements
  cases hd : containsPat id darkMarker.data css with
  | true =>
    simp only [hd, Bool.not_true, Bool.and_false, Bool.false_eq_true, if_false]
    simp only [h1, Bool.not_false, Bool.and_true, if_true]
    rw [countOcc_append css mobileCss.data (by decide)
      (boundary_of_head (show mobileCss.data.head? = some '\n' by decide) (by decide)), h0]
    decide
  | false =>
    simp only [hd, Bool.not_false, Bool.and_true, if_true]
    have hm1 : countOcc id mobileMarker.data (css ++ darkModeCss.data) = 0 := by
      rw [countOcc_append css darkModeCss.data (by decide)
        (boundary_of_head (show darkModeCss.data.head? = some '\n' by decide) (by decide)), h0]
      decide
    have hm2 : containsPat id mobileMarker.data (css ++ darkModeCss.data) = false :=
      not_contains_of_countOcc_zero (by decide) hm1
    simp only [hm2, Bool.not_false, Bool.and_true, if_true]
    rw [countOcc_append _ mobileCss.data (by decide)
      (boundary_of_head (show mobileCss.data.head? = some '\n' by decide) (by decide)), hm1]
    decide

/-- C7 counterexample: a CSS input that already contains the dark-mode
marker twice.  Applying the enhancement twice yields CSS with two
occurrences of `@media (prefers-color-scheme: dark)`, not exactly one. -/
theorem claim_C7_counterexample :
    countOcc id darkMarker.data
      (apply_modern_enhancements
        (apply_modern_enhancements (darkMarker.data ++ darkMarker.data) [] true true).css
        [] true true).css = 2 := by
  decide

/-- C7 (amended): with both flags enabled, the twice-applied enhancement
equals the once-applied enhancement (the two steps are no-ops on their
second run), the result contains at least one occurrence of each
media-query marker, and it contains exactly one occurrence of a marker
whenever the input CSS contained none (an input that already holds a
marker more than once keeps all its occurrences). -/
theorem claim_C7_enhancement_idempotent (css html html2 : List Char) :
    (apply_modern_enhancements
        (apply_modern_enhancements css html true true).css html2 true true).css =
      (apply_modern_enhancements css html true true).css ∧
    containsPat id darkMarker.data
      (apply_modern_enhancements
        (apply_modern_enhancements css html true true).css html2 true true).css = true ∧
    containsPat id mobileMarker.data
      (apply_modern_enhancements
        (apply_modern_enhancements css html true true).css html2 true true).css = true ∧
    (countOcc id darkMarker.data css = 0 →
      countOcc id darkMarker.data
        (apply_modern_enhancements
          (apply_modern_enhancements css html true true).css html2 true true).css = 1) ∧
    (countOcc id mobileMarker.data css = 0 →
      countOcc id mobileMarker.data
        (apply_modern_enhancements
          (apply_modern_enhancements css html true true).css html2 true true).css = 1) := by
  have hd := enhance_dark_present css html
  have hm := enhance_mobile_present css html
  have hnoop : (apply_modern_enhancements
      (apply_modern_enhancements css html true true).css html2 true true).css =
      (apply_modern_enhancements css html true true).css := by
    rw [enhance_noop_of_markers _ html2 hd hm]
  refine ⟨hnoop, ?_, ?_, ?_, ?_⟩
  · rw [hnoop]; exact hd
  · rw [hnoop]; exact hm
  · intro h0
    rw [hnoop]
    exact enhance_dark_count css html h0
  · intro h0
    rw [hnoop]
    exact enhance_mobile_count css html h0

/-- C7 witness: the amended statement applied to the empty CSS input. -/
theorem claim_C7_witness :
    (apply_modern_enhancements
        (apply_modern_enhancements [] [] true true).css [] true true).css =
      (apply_modern_enhancements [] [] true true).css ∧
    countOcc id darkMarker.data
      (apply_modern_enhancements
        (apply_modern_enhancements [] [] true true).css [] true true).css = 1 ∧
    countOcc id mobileMarker.data
      (apply_modern_enhancements
        (apply_modern_enhancements [] [] true true).css [] true true).css = 1 :=
  ⟨(claim_C7_enhancement_idempotent [] [] []).1,
   (claim_C7_enhancement_idempotent [] [] []).2.2.2.1 (by decide),
   (claim_C7_enhancement_idempotent [] [] []).2.2.2.2 (by decide)⟩

/-- C8: the pipeline body is wrapped in `try/except Exception`: whenever
any internal step fails, `optimize_for_email_clients` returns exactly the
fallback result — compatibility score `0.8` and the single label
`"Fallback optimization applied"` — and never an error or a
partial-success state (in the embedding the function is total, so no
exception ever escapes). -/
theorem claim_C8_fallback_on_internal_failure (steps : PipelineSteps) (html : List Char)
    (target_clients : List String) (dm mf : Bool) (e : String)
    (h : pipelineBody steps html target_clients dm mf = .error e) :
    optimize_for_email_clients steps html target_clients dm mf =
      create_fallback_optimization html ∧
    (optimize_for_email_clients steps html target_clients dm mf).compatibility_score = 8/10 ∧
    (optimize_for_email_clients steps html target_clients dm mf).optimizations =
      ["Fallback optimization applied"] := by
  have h2 : optimize_for_email_clients steps html target_clients dm mf =
      create_fallback_optimization html := by
    unfold optimize_for_email_clients
    rw [h]
  refine ⟨h2, ?_, ?_⟩
  · rw [h2]
    rfl
  · rw [h2]
    rfl

/-- Steps whose first transform fails, modelling an internal exception. -/
def failingSteps : PipelineSteps :=
  { extractCss := fun _ => .error "boom",
    extractHtml := fun h => .ok h,
    perClient := fun css html _ => .ok { css := css, html := html, optimizations := [] },
    enhance := fun css html _ _ => .ok { css := css, html := html, enhancements := [] },
    combine := fun html _ => .ok html,
    components := fun _ => .ok [] }

/-- C8 witness: with a failing first step, the pipeline returns the
fallback with score `0.8` and the single fallback label. -/
theorem claim_C8_witness :
    pipelineBody failingSteps [] [] true true = .error "boom" ∧
    (optimize_for_email_clients failingSteps [] [] true true).compatibility_score = 8/10 ∧
    (optimize_for_email_clients failingSteps [] [] true true).optimizations =
      ["Fallback optimization applied"] :=
  ⟨rfl,
   (claim_C8_fallback_on_internal_failure failingSteps [] [] true true "boom" rfl).2.1,
   (claim_C8_fallback_on_internal_failure failingSteps [] [] true true "boom" rfl).2.2⟩

/-- C9: the structural analyzer is a total function (never raises); all
its count fields are non-negative, and on the empty input every boolean
feature is `false` and every count is `0` (the two derived metrics take
their base values `100` and `1`). -/
theorem claim_C9_analyzer_total_and_zero_on_empty (html : List Char) :
    (0 : ℤ) ≤ (analyze_html_structure html).element_count ∧
    (0 : ℤ) ≤ (analyze_html_structure html).inline_styles_count ∧
    (0 : ℤ) ≤ (analyze_html_structure html).css_classes_count ∧
    (0 : ℤ) ≤ (analyze_html_structure html).table_count ∧
    (0 : ℤ) ≤ (analyze_html_structure html).image_count ∧
    (0 : ℤ) ≤ (analyze_html_structure html).link_count ∧
    analyze_html_structure [] =
      { has_doctype := false, has_html_tag := false, has_head := false,
        has_body := false, has_meta_charset := false, has_meta_viewport := false,
        has_title := false, uses_tables := false, uses_css := false,
        has_images := false, has_links := false,
        estimated_render_time := 100, complexity_score := 1,
        element_count := 0, inline_styles_count := 0, css_classes_count := 0,
        table_count := 0, image_count := 0, link_count := 0 } := by
  refine ⟨Int.natCast_nonneg _, Int.natCast_nonneg _, Int.natCast_nonneg _,
    Int.natCast_nonneg _, Int.natCast_nonneg _, Int.natCast_nonneg _, ?_⟩
  have htime : estimate_render_time [] = 100 := by
    unfold estimate_render_time
    rw [show countOcc id "<table".data (([] : List Char).map pyLower) = 0 from rfl,
      show countOcc id "gradient".data ([] : List Char) = 0 from rfl,
      show countOcc id "shadow".data ([] : List Char) = 0 from rfl,
      show countOcc id "transform".data ([] : List Char) = 0 from rfl,
      List.length_nil]
    norm_num
  unfold analyze_html_structure
  rw [htime]
  decide

/-- C10: whenever the pipeline body completes without hitting the
exception handler, the returned compatibility score is
`calculate_compatibility_score target_clients` — a function of the client
list alone, independent of the HTML/CSS input, the flags and even the
step implementations — and it always lies in `[0.8, 1.0]`. -/
theorem claim_C10_score_function_of_clients_only
    (steps1 steps2 : PipelineSteps) (html1 html2 : List Char) (clients : List String)
    (dm1 mf1 dm2 mf2 : Bool) (r1 r2 : OptResult)
    (h1 : pipelineBody steps1 html1 clients dm1 mf1 = .ok r1)
    (h2 : pipelineBody steps2 html2 clients dm2 mf2 = .ok r2) :
    r1.compatibility_score = calculate_compatibility_score clients ∧
    r1.compatibility_score = r2.compatibility_score ∧
    8/10 ≤ r1.compatibility_score ∧ r1.compatibility_score ≤ 1 := by
  have key : ∀ (steps : PipelineSteps) (html : List Char) (dm mf : Bool) (r : OptResult),
      pipelineBody steps html clients dm mf = .ok r →
      r.compatibility_score = calculate_compatibility_score clients := by
    intro steps html dm mf r h
    unfold pipelineBody at h
    split at h
    · cases h
    · split at h
      · cases h
      · split at h
        · cases h
        · split at h
          · cases h
          · split at h
            · cases h
            · split at h
              · cases h
              · injection h with h
                rw [← h]
  have hrange : 8/10 ≤ calculate_compatibility_score clients ∧
      calculate_compatibility_score clients ≤ 1 := by
    unfold calculate_compatibility_score
    split_ifs <;>
      refine ⟨le_min (by norm_num) (by norm_num), min_le_right _ _⟩
  refine ⟨key steps1 html1 dm1 mf1 r1 h1, ?_, ?_, ?_⟩
  · rw [key steps1 html1 dm1 mf1 r1 h1, key steps2 html2 dm2 mf2 r2 h2]
  · rw [key steps1 html1 dm1 mf1 r1 h1]
    exact hrange.1
  · rw [key steps1 html1 dm1 mf1 r1 h1]
    exact hrange.2

/-- C10 witness: two runs with the same client list but different inputs
and flags produce the same score, inside `[0.8, 1.0]`. -/
theorem claim_C10_witness :
    pipelineBody realSteps "<p>a</p>".data ["gmail"] true true =
      .ok (optimizePure "<p>a</p>".data ["gmail"] true true) ∧
    (optimizePure "<p>a</p>".data ["gmail"] true true).compatibility_score =
      (optimizePure "<div>b</div>".data ["gmail"] false false).compatibility_score ∧
    8/10 ≤ (optimizePure "<p>a</p>".data ["gmail"] true true).compatibility_score ∧
    (optimizePure "<p>a</p>".data ["gmail"] true true).compatibility_score ≤ 1 :=
  ⟨pipelineBody_real _ _ _ _,
   (claim_C10_score_function_of_clients_only realSteps realSteps
      "<p>a</p>".data "<div>b</div>".data ["gmail"] true true false false _ _
      (pipelineBody_real _ _ _ _) (pipelineBody_real _ _ _ _)).2⟩

end MailTrendz
